import Mathlib

/-
Shallow embedding of the core update/collision loop of the browser game in
game.js (Mouse Dash): the entity model, the spawner, the collision and
scoring engine, and the screen state machine, together with theorems about
them.

Conventions, documented once here:

* JavaScript numbers are idealised as exact rationals; all game arithmetic
  (positions, velocities, timers, scores) is over the rationals.
* The source compares Euclidean distances (Math.hypot) against thresholds.
  Over the reals, sqrt d2 < r iff (0 < r and d2 < r * r), and
  sqrt d2 <= r iff (0 <= r and d2 <= r * r), because sqrt d2 >= 0; so every
  such comparison is embedded by the equivalent squared form (distLtB,
  distLeB) and no square-root value is needed on any branch the game takes.
* The only places a square-root value (rather than a comparison) flows into
  the state are vector normalisation: the player's diagonal direction, the
  hazard spawn-velocity draw, and the post-hit nudge.  Those call the
  environment's sq oracle, which stands for Math.sqrt; no theorem below
  depends on the oracle's values.
* Math.random is modelled as a stream rng : Nat -> Rat read at a cursor
  (ridx) threaded through the state, so random draws are explicit data.
* Purely cosmetic data that no game logic ever reads (sprite animation
  frames, the player's trail and facing, particle colours and sizes, the
  floating-text strings, the camera shake offset used only by draw) is
  omitted; the particle and floating-text lists themselves, and every field
  the update logic reads, are kept.
-/

namespace MouseDash

/-- Constant player speed in units per second (PLAYER_SPEED). -/
def PLAYER_SPEED : ℚ := 280

/-- Post-hit invulnerability duration in seconds (INVULN_TIME). -/
def INVULN_TIME : ℚ := 1

/-- Combo window duration in seconds (COMBO_WINDOW = 1.25). -/
def COMBO_WINDOW : ℚ := 5 / 4

/-- Combo bonus per combo step (COMBO_BONUS_STEP). -/
def COMBO_BONUS_STEP : ℤ := 2

/-- Saturation cap of the combo bonus (COMBO_BONUS_CAP). -/
def COMBO_BONUS_CAP : ℤ := 14

/-- 2D vector (class Vec2 in the source). -/
structure Vec2 where
  x : ℚ
  y : ℚ
deriving DecidableEq

/-- Squared length (Vec2.len2). -/
def Vec2.len2 (v : Vec2) : ℚ := v.x * v.x + v.y * v.y

/-- Squared distance between two points.  The source's distanceTo is
Math.hypot dx dy, the square root of this; it is only ever used in
comparisons, which are embedded in squared form below. -/
def Vec2.dist2 (a b : Vec2) : ℚ :=
  (a.x - b.x) * (a.x - b.x) + (a.y - b.y) * (a.y - b.y)

/-- Exact embedding of the source comparison a.distanceTo(b) < r: over the
reals, sqrt d2 < r iff 0 < r and d2 < r * r, since sqrt d2 >= 0. -/
def distLtB (a b : Vec2) (r : ℚ) : Bool :=
  decide (0 < r ∧ Vec2.dist2 a b < r * r)

/-- Exact embedding of the source comparison a.distanceTo(b) <= r. -/
def distLeB (a b : Vec2) (r : ℚ) : Bool :=
  decide (0 ≤ r ∧ Vec2.dist2 a b ≤ r * r)

/-- clamp(value, min, max) = Math.max(min, Math.min(max, value)). -/
def clampQ (value lo hi : ℚ) : ℚ := max lo (min hi value)

/-- Ambient data of a session: the canvas size, the sprite-derived radii,
the random stream, and oracles for the irrational primitives (see the
header comment).  velFuel bounds the hazard-velocity rejection loop, which
the source retries without bound (terminating with probability 1). -/
structure Env where
  width : ℚ
  height : ℚ
  playerRadius : ℚ
  itemRadius : ℚ
  rng : ℕ → ℚ
  sq : ℚ → ℚ
  cosO : ℚ → ℚ
  sinO : ℚ → ℚ
  tau : ℚ
  velFuel : ℕ

/-- rand(min, max) = min + Math.random() * (max - min), reading the next
stream element and advancing the cursor. -/
def randQ (env : Env) (lo hi : ℚ) (i : ℕ) : ℚ × ℕ :=
  (lo + env.rng i * (hi - lo), i + 1)

/-- One difficulty preset (an entry of DIFFICULTIES). -/
structure Difficulty where
  name : String
  lives : ℤ
  time : ℚ
  hazards : ℕ
  items : ℕ
  hazardSpeedLo : ℚ
  hazardSpeedHi : ℚ
deriving DecidableEq

/-- Easy preset. -/
def dEasy : Difficulty := ⟨"Easy", 5, 60, 3, 8, 120, 170⟩

/-- Normal preset. -/
def dNormal : Difficulty := ⟨"Normal", 4, 50, 4, 10, 150, 210⟩

/-- Hard preset. -/
def dHard : Difficulty := ⟨"Hard", 3, 40, 10, 12, 190, 260⟩

/-- The fixed ordered list of difficulty presets. -/
def DIFFICULTIES : List Difficulty := [dEasy, dNormal, dHard]

/-- Player state (cosmetic trail, animation and facing fields omitted, see
the header comment). -/
structure Player where
  pos : Vec2
  radius : ℚ
  hitCooldown : ℚ
deriving DecidableEq

/-- canTakeHit() returns hitCooldown <= 0. -/
def canTakeHit (p : Player) : Bool := decide (p.hitCooldown ≤ 0)

/-- markHit() starts the invulnerability window. -/
def markHit (p : Player) : Player := { p with hitCooldown := INVULN_TIME }

/-- Vec2.normalize: divide by the length when it is positive.  The length
is sq applied to len2 (Math.hypot). -/
def normalizeV (sq : ℚ → ℚ) (v : Vec2) : Vec2 :=
  let l := sq (Vec2.len2 v)
  if 0 < l then ⟨v.x / l, v.y / l⟩ else v

/-- Player.update(keys, dt): builds a direction from the held movement
keys, normalises it when nonzero, integrates the position at PLAYER_SPEED,
clamps it to the play area (40-unit HUD band reserved at the top), and
decays the hit cooldown toward 0. -/
def playerUpdate (env : Env) (keys : List String) (dt : ℚ) (p : Player) : Player :=
  let dx : ℚ :=
    (if keys.contains ("ArrowLeft") || keys.contains ("a") then -1 else 0) +
    (if keys.contains ("ArrowRight") || keys.contains ("d") then 1 else 0)
  let dy : ℚ :=
    (if keys.contains ("ArrowUp") || keys.contains ("w") then -1 else 0) +
    (if keys.contains ("ArrowDown") || keys.contains ("s") then 1 else 0)
  let dir0 : Vec2 := ⟨dx, dy⟩
  let dir := if 0 < Vec2.len2 dir0 then normalizeV env.sq dir0 else dir0
  let nx := p.pos.x + dir.x * PLAYER_SPEED * dt
  let ny := p.pos.y + dir.y * PLAYER_SPEED * dt
  let cx := clampQ nx p.radius (env.width - p.radius)
  let cy := clampQ ny (p.radius + 40) (env.height - p.radius)
  let cd := if 0 < p.hitCooldown then max 0 (p.hitCooldown - dt) else p.hitCooldown
  { p with pos := ⟨cx, cy⟩, hitCooldown := cd }

/-- Collectible item (class Item; the cosmetic wobble phase is omitted). -/
structure Item where
  pos : Vec2
  radius : ℚ
deriving DecidableEq

/-- Moving hazard (class Hazard; size is the full square side, 24). -/
structure Hazard where
  pos : Vec2
  size : ℚ
  vel : Vec2
deriving DecidableEq

/-- Hazard.update(dt): integrate the position by the velocity; when the new
position crosses a boundary at a margin equal to the hazard's size (plus
the 40-unit HUD band on top), flip the corresponding velocity component and
clamp the position back inside those margins. -/
def hazardUpdate (env : Env) (dt : ℚ) (hz : Hazard) : Hazard :=
  let px := hz.pos.x + hz.vel.x * dt
  let py := hz.pos.y + hz.vel.y * dt
  let crossX : Bool := decide (px < hz.size) || decide (env.width - hz.size < px)
  let crossY : Bool := decide (py < hz.size + 40) || decide (env.height - hz.size < py)
  let vx := if crossX then -hz.vel.x else hz.vel.x
  let vy := if crossY then -hz.vel.y else hz.vel.y
  let qx := if crossX || crossY then clampQ px hz.size (env.width - hz.size) else px
  let qy := if crossX || crossY then clampQ py (hz.size + 40) (env.height - hz.size) else py
  { hz with pos := ⟨qx, qy⟩, vel := ⟨vx, vy⟩ }

/-- Hazard.randomVelocity([min, max]): rejection-sample a direction with
len2 > 0.1, then scale it to a random speed.  The source retries without
bound; the retries are capped by the fuel argument here (returning the zero
vector on exhaustion) and no theorem depends on the returned value. -/
def randomVelocity (env : Env) (lo hi : ℚ) : ℕ → ℕ → Vec2 × ℕ
  | 0, i => (⟨0, 0⟩, i)
  | fuel + 1, i =>
    let (vx, i1) := randQ env (-1) 1 i
    let (vy, i2) := randQ env (-1) 1 i1
    let l2 := vx * vx + vy * vy
    if l2 ≤ 1 / 10 then randomVelocity env lo hi fuel i2
    else
      let l := env.sq l2
      let (speed, i3) := randQ env lo hi i2
      (⟨vx / l * speed, vy / l * speed⟩, i3)

/-- nudgeAwayFrom(point): displace the hazard 18 units directly away from
the point (random direction when coincident with it; the JS fallback
"length or 1" when the computed length is 0). -/
def nudgeAwayFrom (env : Env) (point : Vec2) (hz : Hazard) (i : ℕ) : Hazard × ℕ :=
  let dx0 := hz.pos.x - point.x
  let dy0 := hz.pos.y - point.y
  let (dx, dy, i1) :=
    if dx0 = 0 ∧ dy0 = 0 then
      let (rx, ia) := randQ env (-1) 1 i
      let (ry, ib) := randQ env (-1) 1 ia
      (rx, ry, ib)
    else (dx0, dy0, i)
  let l0 := env.sq (dx * dx + dy * dy)
  let l := if l0 = 0 then 1 else l0
  ({ hz with pos := ⟨hz.pos.x + dx / l * 18, hz.pos.y + dy / l * 18⟩ }, i1)

/-- Effect particle (colour and size are cosmetic and omitted). -/
structure Particle where
  pos : Vec2
  vel : Vec2
  life : ℚ
  total : ℚ
deriving DecidableEq

/-- Particle.update(dt). -/
def particleUpdate (dt : ℚ) (p : Particle) : Particle :=
  { p with pos := ⟨p.pos.x + p.vel.x * dt, p.pos.y + p.vel.y * dt⟩, life := p.life - dt }

/-- Floating score text (class FloatingText; the string is cosmetic and
omitted). -/
structure Floater where
  pos : Vec2
  life : ℚ
deriving DecidableEq

/-- FloatingText.update(dt): fade and drift upward. -/
def floaterUpdate (dt : ℚ) (f : Floater) : Floater :=
  { f with life := f.life - dt, pos := ⟨f.pos.x, f.pos.y - 30 * dt⟩ }

/-- Burst of n particles at pos, each with a random angle in [0, tau) and a
random speed in [sLo, sHi); the velocity goes through the cos and sin
oracles. -/
def mkParticles (env : Env) (pos : Vec2) (lifetime sLo sHi : ℚ) : ℕ → ℕ → List Particle × ℕ
  | 0, i => ([], i)
  | n + 1, i =>
    let (a, i1) := randQ env 0 env.tau i
    let (s, i2) := randQ env sLo sHi i1
    let (rest, i3) := mkParticles env pos lifetime sLo sHi n i2
    (⟨pos, ⟨env.cosO a * s, env.sinO a * s⟩, lifetime, lifetime⟩ :: rest, i3)

/-- Screen states of the game state machine. -/
inductive GState where
  | menu
  | playing
  | paused
  | gameOver
deriving DecidableEq

/-- Full game state (the source's class Game, minus the canvas handles and
the cosmetic-only fields; stored is the persisted high score behind
localStorage, ridx the random-stream cursor). -/
structure Game where
  state : GState
  difficultyIndex : ℕ
  timeAcc : ℚ
  score : ℤ
  lives : ℤ
  timeLeft : ℚ
  combo : ℤ
  comboTimer : ℚ
  player : Player
  items : List Item
  hazards : List Hazard
  particles : List Particle
  floaters : List Floater
  shakeTimer : ℚ
  highScore : ℤ
  newHighScore : Bool
  stored : ℤ
  ridx : ℕ
deriving DecidableEq

/-- spawnCollectEffect(pos, points, combo): 12 gold particles plus a
floating points text, and a combo text when the combo is at least 2. -/
def spawnCollectEffect (env : Env) (pos : Vec2) (combo : ℤ) (g : Game) : Game :=
  let (ps, i) := mkParticles env pos (2 / 5) 80 160 12 g.ridx
  let fl := [({ pos := pos, life := 1 } : Floater)] ++
    (if 2 ≤ combo then [({ pos := ⟨pos.x, pos.y - 18⟩, life := 1 } : Floater)] else [])
  { g with particles := g.particles ++ ps, floaters := g.floaters ++ fl, ridx := i }

/-- spawnHitEffect(pos): 18 particles and a camera shake. -/
def spawnHitEffect (env : Env) (pos : Vec2) (g : Game) : Game :=
  let (ps, i) := mkParticles env pos (1 / 2) 120 220 18 g.ridx
  { g with particles := g.particles ++ ps, ridx := i, shakeTimer := 1 / 4 }

/-- updateEffects(dt): advance and cull particles and floating texts. -/
def updateEffects (dt : ℚ) (g : Game) : Game :=
  { g with
    particles := (g.particles.map (particleUpdate dt)).filter (fun p => decide (0 < p.life)),
    floaters := (g.floaters.map (floaterUpdate dt)).filter (fun f => decide (0 < f.life)) }

/-- enterGameOver(): switch the state to game over; a final score strictly
above the high score replaces it and persists it (saveHighScore). -/
def enterGameOver (g : Game) : Game :=
  let g1 := { g with state := GState.gameOver }
  if g1.highScore < g1.score then
    { g1 with highScore := g1.score, newHighScore := true, stored := g1.score }
  else
    { g1 with newHighScore := false }

/-- Placement loop of spawnItems(count): while fewer than count items are
present and the attempt budget remains, draw a candidate position and
accept it only when it is far enough from the player, from every current
item, and from every hazard.  Returns the items, the stream cursor, and the
attempts made; the fuel argument is the remaining attempt budget,
20 * count at the call in spawnItems. -/
def spawnItemsLoop (env : Env) (pPos : Vec2) (hzs : List Hazard) (newR : ℚ)
    (count : ℕ) : ℕ → List Item → ℕ → ℕ → List Item × ℕ × ℕ
  | 0, items, i, attempts => (items, i, attempts)
  | fuel + 1, items, i, attempts =>
    if items.length < count then
      let (x, i1) := randQ env 40 (env.width - 40) i
      let (y, i2) := randQ env 80 (env.height - 40) i1
      let pos : Vec2 := ⟨x, y⟩
      let tooClosePlayer := distLtB pos pPos 80
      let tooCloseOther := items.any (fun it => distLtB pos it.pos (it.radius + newR + 8))
      let tooCloseHazard := hzs.any (fun hz => distLtB pos hz.pos (hz.size + newR + 12))
      if !tooClosePlayer && !tooCloseOther && !tooCloseHazard then
        spawnItemsLoop env pPos hzs newR count fuel (items ++ [⟨pos, newR⟩]) i2 (attempts + 1)
      else
        spawnItemsLoop env pPos hzs newR count fuel items i2 (attempts + 1)
    else (items, i, attempts)

/-- spawnItems(count) on the game state. -/
def spawnItems (env : Env) (count : ℕ) (g : Game) : Game :=
  let r := spawnItemsLoop env g.player.pos g.hazards env.itemRadius count (20 * count)
    g.items g.ridx 0
  { g with items := r.1, ridx := r.2.1 }

/-- Placement loop of spawnHazards(count, speedRange), with minimum
distances 120 from the player and 60 between hazards, and an attempt budget
of 25 * count at the call in spawnHazards. -/
def spawnHazardsLoop (env : Env) (pPos : Vec2) (lo hi : ℚ)
    (count : ℕ) : ℕ → List Hazard → ℕ → ℕ → List Hazard × ℕ × ℕ
  | 0, hzs, i, attempts => (hzs, i, attempts)
  | fuel + 1, hzs, i, attempts =>
    if hzs.length < count then
      let (x, i1) := randQ env 60 (env.width - 60) i
      let (y, i2) := randQ env 100 (env.height - 60) i1
      let pos : Vec2 := ⟨x, y⟩
      if distLtB pos pPos 120 then
        spawnHazardsLoop env pPos lo hi count fuel hzs i2 (attempts + 1)
      else if hzs.any (fun h => distLtB pos h.pos 60) then
        spawnHazardsLoop env pPos lo hi count fuel hzs i2 (attempts + 1)
      else
        let (vel, i3) := randomVelocity env lo hi env.velFuel i2
        spawnHazardsLoop env pPos lo hi count fuel (hzs ++ [⟨pos, 24, vel⟩]) i3 (attempts + 1)
    else (hzs, i, attempts)

/-- spawnHazards(count, speedRange) on the game state. -/
def spawnHazards (env : Env) (count : ℕ) (lo hi : ℚ) (g : Game) : Game :=
  let r := spawnHazardsLoop env g.player.pos lo hi count (25 * count) g.hazards g.ridx 0
  { g with hazards := r.1, ridx := r.2.1 }

/-- Scoring for one collected item (the body of the per-item branch of
handleCollisions): an active combo window increments the combo, otherwise
it restarts at 1; the window restarts; the points are
10 + min(COMBO_BONUS_CAP, (combo - 1) * COMBO_BONUS_STEP) and are added to
the score; a collect effect is spawned. -/
def collectItem (env : Env) (pos : Vec2) (g : Game) : Game :=
  let combo1 := if 0 < g.comboTimer then g.combo + 1 else 1
  let bonus := min COMBO_BONUS_CAP ((combo1 - 1) * COMBO_BONUS_STEP)
  let points := 10 + bonus
  spawnCollectEffect env pos combo1
    { g with combo := combo1, comboTimer := COMBO_WINDOW, score := g.score + points }

/-- Item pass of handleCollisions: items overlapping the player are
collected in order, the survivors keep their order, and an empty board
respawns a full batch sized for the current difficulty. -/
def itemsScan (env : Env) : Game → List Item → List Item → Game
  | g, kept, [] =>
    let g1 := { g with items := kept }
    if g1.items = [] then
      spawnItems env (DIFFICULTIES.getD g1.difficultyIndex dEasy).items g1
    else g1
  | g, kept, it :: rest =>
    if distLeB g.player.pos it.pos (g.player.radius + it.radius) then
      itemsScan env (collectItem env it.pos g) kept rest
    else
      itemsScan env g (kept ++ [it]) rest

/-- The item pass run on the game's item list. -/
def itemsPhase (env : Env) (g : Game) : Game := itemsScan env g [] g.items

/-- Hazard pass of handleCollisions: the first hazard overlapping the
player costs one life, starts invulnerability, is nudged away, spawns the
hit effect, and stops the scan. -/
def hazardLoop (env : Env) : Game → List Hazard → List Hazard → Game
  | g, prev, [] => { g with hazards := prev }
  | g, prev, hz :: rest =>
    if distLeB g.player.pos hz.pos (g.player.radius + hz.size * (1 / 2)) then
      let (hz1, i1) := nudgeAwayFrom env g.player.pos hz g.ridx
      let g1 := { g with lives := g.lives - 1, player := markHit g.player, ridx := i1 }
      let g2 := spawnHitEffect env g.player.pos g1
      { g2 with hazards := prev ++ hz1 :: rest }
    else hazardLoop env g (prev ++ [hz]) rest

/-- The hazard pass, skipped entirely while the player cannot take a hit. -/
def hazardPhase (env : Env) (g : Game) : Game :=
  if canTakeHit g.player then hazardLoop env g [] g.hazards else g

/-- handleCollisions(): the item pass followed by the hazard pass. -/
def handleCollisions (env : Env) (g : Game) : Game :=
  hazardPhase env (itemsPhase env g)

/-- The combo-window countdown at the top of a playing frame: while the
timer is positive it decreases toward 0, and the combo resets to 0 the
moment it reaches 0. -/
def comboTick (dt : ℚ) (g : Game) : Game :=
  if 0 < g.comboTimer then
    let ct := max 0 (g.comboTimer - dt)
    { g with comboTimer := ct, combo := if ct = 0 then 0 else g.combo }
  else g

/-- The state-independent frame prologue of Game.update: the elapsed-time
accumulator, the camera-shake countdown, and the effects update. -/
def frameCosmetics (dt : ℚ) (g : Game) : Game :=
  updateEffects dt
    { g with
      timeAcc := g.timeAcc + dt,
      shakeTimer := if 0 < g.shakeTimer then max 0 (g.shakeTimer - dt) else g.shakeTimer }

/-- The movement step of a playing frame: the player update followed by
every hazard's update. -/
def movePhase (env : Env) (dt : ℚ) (keys : List String) (g : Game) : Game :=
  { g with
    player := playerUpdate env keys dt g.player,
    hazards := g.hazards.map (hazardUpdate env dt) }

/-- The frame epilogue of Game.update: the run timer decreases (floored at
0), and the run ends when it, or the lives, reached 0. -/
def timeoutCheck (dt : ℚ) (g : Game) : Game :=
  let g1 := { g with timeLeft := max 0 (g.timeLeft - dt) }
  if g1.timeLeft ≤ 0 ∨ g1.lives ≤ 0 then enterGameOver g1 else g1

/-- Game.update(dt, keys): the frame prologue always runs; while playing,
the combo tick, the movement step, collision handling, and the timeout
check follow in that order. -/
def gameUpdate (env : Env) (dt : ℚ) (keys : List String) (g : Game) : Game :=
  let g1 := frameCosmetics dt g
  if g1.state = GState.playing then
    timeoutCheck dt (handleCollisions env (movePhase env dt keys (comboTick dt g1)))
  else g1

/-- startGame(): begin a run with the selected difficulty, resetting the
score, lives, timer and combo state, recentering the player, clearing all
entities and effects, and respawning hazards and items. -/
def startGame (env : Env) (g : Game) : Game :=
  let d := DIFFICULTIES.getD g.difficultyIndex dEasy
  let g1 := { g with
    state := GState.playing,
    timeLeft := d.time, score := 0, lives := d.lives,
    combo := 0, comboTimer := 0,
    player := { g.player with pos := ⟨env.width / 2, env.height / 2⟩, hitCooldown := 0 },
    items := [], hazards := [], particles := [], floaters := [],
    shakeTimer := 0, newHighScore := false }
  spawnItems env d.items (spawnHazards env d.hazards d.hazardSpeedLo d.hazardSpeedHi g1)

/-- resetRun(difficultyIndex): like startGame but replacing the player
object and ending in the menu state. -/
def resetRun (env : Env) (idx : Option ℕ) (g : Game) : Game :=
  let di := idx.getD g.difficultyIndex
  let d := DIFFICULTIES.getD di dEasy
  let g1 := { g with
    difficultyIndex := di,
    score := 0, lives := d.lives, timeLeft := d.time,
    combo := 0, comboTimer := 0,
    player := { pos := ⟨env.width / 2, env.height / 2⟩, radius := env.playerRadius,
                hitCooldown := 0 },
    items := [], hazards := [], particles := [], floaters := [],
    shakeTimer := 0, newHighScore := false }
  let g2 := spawnItems env d.items (spawnHazards env d.hazards d.hazardSpeedLo d.hazardSpeedHi g1)
  { g2 with state := GState.menu }

/-- onKeyDown(key): the discrete state-machine transitions.  Arrow keys in
the menu fall through to the game-over branch in the source, which is then
a no-op because the state is still menu; the translation returns directly. -/
def onKeyDown (env : Env) (key : String) (g : Game) : Game :=
  if key = "q" then resetRun env (some g.difficultyIndex) g
  else if (g.state = GState.playing ∨ g.state = GState.paused) ∧
      (key = "p" ∨ key = "Escape") then
    { g with state := if g.state = GState.playing then GState.paused else GState.playing }
  else if g.state = GState.playing ∧ key = "r" then startGame env g
  else if g.state = GState.paused then
    if key = "r" then startGame env g
    else if key = "m" then resetRun env (some g.difficultyIndex) g
    else g
  else if g.state = GState.menu then
    if key = "ArrowUp" then
      { g with difficultyIndex :=
        (g.difficultyIndex + DIFFICULTIES.length - 1) % DIFFICULTIES.length }
    else if key = "ArrowDown" then
      { g with difficultyIndex := (g.difficultyIndex + 1) % DIFFICULTIES.length }
    else if key = "1" ∨ key = "2" ∨ key = "3" then
      let idx0 : ℕ := if key = "1" then 0 else if key = "2" then 1 else 2
      startGame env { g with difficultyIndex := min idx0 (DIFFICULTIES.length - 1) }
    else if key = "Enter" ∨ key = " " then startGame env g
    else g
  else if g.state = GState.gameOver then
    if key = "Enter" ∨ key = " " then startGame env g
    else if key = "r" ∨ key = "m" then resetRun env (some g.difficultyIndex) g
    else g
  else g

/-- Spec-side boundary condition, written from the spec's words for
comparison with the code: a hazard "crosses a play-area boundary with
margin equal to its half-size" horizontally when its integrated x position
is within half its size of the left or right edge. -/
def specCrossXHalfSize (env : Env) (hz : Hazard) (px : ℚ) : Prop :=
  px < hz.size / 2 ∨ env.width - hz.size / 2 < px

/-- Vec2.len = Math.hypot x y, the square root of len2, through the sq
oracle. -/
def Vec2.lenO (sq : ℚ → ℚ) (v : Vec2) : ℚ := sq (Vec2.len2 v)

/-- Concrete test environment: a 400 x 300 canvas, the spriteless fallback
radii (player 18, item 10), and the stream in which Math.random always
returns 1/2. -/
def envR : Env where
  width := 400
  height := 300
  playerRadius := 18
  itemRadius := 10
  rng := fun _ => 1 / 2
  sq := fun _ => 0
  cosO := fun _ => 0
  sinO := fun _ => 0
  tau := 6
  velFuel := 3

/-- Concrete base game state used by the evaluation theorems: menu state,
Easy difficulty, the player centered on the 400 x 300 canvas. -/
def gBase : Game where
  state := GState.menu
  difficultyIndex := 0
  timeAcc := 0
  score := 0
  lives := 5
  timeLeft := 60
  combo := 0
  comboTimer := 0
  player := ⟨⟨200, 150⟩, 18, 0⟩
  items := []
  hazards := []
  particles := []
  floaters := []
  shakeTimer := 0
  highScore := 0
  newHighScore := false
  stored := 0
  ridx := 0

/-- An item far from the centered player on the 400 x 300 canvas (used to
keep the board non-empty without a collection). -/
def farItem : Item := ⟨⟨350, 250⟩, 10⟩

/-- A motionless hazard sitting exactly on the centered player. -/
def hazardOnPlayer : Hazard := ⟨⟨200, 150⟩, 24, ⟨0, 0⟩⟩

/-- Playing state with the player overlapped by a hazard but on a full
1-second hit cooldown. -/
def gCool : Game := { gBase with
  state := GState.playing
  lives := 3
  timeLeft := 100
  player := ⟨⟨200, 150⟩, 18, 1⟩
  items := [farItem]
  hazards := [hazardOnPlayer] }

/-- Playing state about to run out of time with a score above the stored
high score. -/
def gOver : Game := { gBase with
  state := GState.playing
  timeLeft := 1 / 2
  score := 10
  highScore := 5
  stored := 5
  items := [farItem] }

/-! Field-preservation lemmas for the frame phases: each phase touches only
the fields its source counterpart assigns. -/

section Preservation

variable (env : Env) (dt : ℚ) (keys : List String) (g : Game) (pos : Vec2) (n : ℕ)

@[simp] theorem frameCosmetics_state : (frameCosmetics dt g).state = g.state := rfl

@[simp] theorem frameCosmetics_score : (frameCosmetics dt g).score = g.score := rfl

@[simp] theorem frameCosmetics_lives : (frameCosmetics dt g).lives = g.lives := rfl

@[simp] theorem frameCosmetics_timeLeft : (frameCosmetics dt g).timeLeft = g.timeLeft := rfl

@[simp] theorem frameCosmetics_combo : (frameCosmetics dt g).combo = g.combo := rfl

@[simp] theorem frameCosmetics_comboTimer : (frameCosmetics dt g).comboTimer = g.comboTimer := rfl

@[simp] theorem frameCosmetics_player : (frameCosmetics dt g).player = g.player := rfl

@[simp] theorem frameCosmetics_items : (frameCosmetics dt g).items = g.items := rfl

@[simp] theorem frameCosmetics_hazards : (frameCosmetics dt g).hazards = g.hazards := rfl

@[simp] theorem frameCosmetics_highScore : (frameCosmetics dt g).highScore = g.highScore := rfl

@[simp] theorem frameCosmetics_stored : (frameCosmetics dt g).stored = g.stored := rfl

@[simp] theorem frameCosmetics_newHighScore :
    (frameCosmetics dt g).newHighScore = g.newHighScore := rfl

@[simp] theorem frameCosmetics_difficultyIndex :
    (frameCosmetics dt g).difficultyIndex = g.difficultyIndex := rfl

@[simp] theorem frameCosmetics_ridx : (frameCosmetics dt g).ridx = g.ridx := rfl

@[simp] theorem comboTick_state : (comboTick dt g).state = g.state := by
  unfold comboTick; split <;> rfl

@[simp] theorem comboTick_score : (comboTick dt g).score = g.score := by
  unfold comboTick; split <;> rfl

@[simp] theorem comboTick_lives : (comboTick dt g).lives = g.lives := by
  unfold comboTick; split <;> rfl

@[simp] theorem comboTick_timeLeft : (comboTick dt g).timeLeft = g.timeLeft := by
  unfold comboTick; split <;> rfl

@[simp] theorem comboTick_player : (comboTick dt g).player = g.player := by
  unfold comboTick; split <;> rfl

@[simp] theorem comboTick_items : (comboTick dt g).items = g.items := by
  unfold comboTick; split <;> rfl

@[simp] theorem comboTick_hazards : (comboTick dt g).hazards = g.hazards := by
  unfold comboTick; split <;> rfl

@[simp] theorem comboTick_highScore : (comboTick dt g).highScore = g.highScore := by
  unfold comboTick; split <;> rfl

@[simp] theorem comboTick_stored : (comboTick dt g).stored = g.stored := by
  unfold comboTick; split <;> rfl

@[simp] theorem comboTick_newHighScore : (comboTick dt g).newHighScore = g.newHighScore := by
  unfold comboTick; split <;> rfl

@[simp] theorem comboTick_difficultyIndex :
    (comboTick dt g).difficultyIndex = g.difficultyIndex := by
  unfold comboTick; split <;> rfl

@[simp] theorem comboTick_ridx : (comboTick dt g).ridx = g.ridx := by
  unfold comboTick; split <;> rfl

theorem comboTick_comboTimer : (comboTick dt g).comboTimer =
    if 0 < g.comboTimer then max 0 (g.comboTimer - dt) else g.comboTimer := by
  unfold comboTick; split <;> rfl

theorem comboTick_combo : (comboTick dt g).combo =
    if 0 < g.comboTimer then (if max 0 (g.comboTimer - dt) = 0 then 0 else g.combo)
    else g.combo := by
  unfold comboTick; split <;> rfl

@[simp] theorem movePhase_state : (movePhase env dt keys g).state = g.state := rfl

@[simp] theorem movePhase_score : (movePhase env dt keys g).score = g.score := rfl

@[simp] theorem movePhase_lives : (movePhase env dt keys g).lives = g.lives := rfl

@[simp] theorem movePhase_timeLeft : (movePhase env dt keys g).timeLeft = g.timeLeft := rfl

@[simp] theorem movePhase_combo : (movePhase env dt keys g).combo = g.combo := rfl

@[simp] theorem movePhase_comboTimer : (movePhase env dt keys g).comboTimer = g.comboTimer := rfl

@[simp] theorem movePhase_items : (movePhase env dt keys g).items = g.items := rfl

@[simp] theorem movePhase_highScore : (movePhase env dt keys g).highScore = g.highScore := rfl

@[simp] theorem movePhase_stored : (movePhase env dt keys g).stored = g.stored := rfl

@[simp] theorem movePhase_newHighScore :
    (movePhase env dt keys g).newHighScore = g.newHighScore := rfl

@[simp] theorem movePhase_difficultyIndex :
    (movePhase env dt keys g).difficultyIndex = g.difficultyIndex := rfl

@[simp] theorem movePhase_ridx : (movePhase env dt keys g).ridx = g.ridx := rfl

theorem movePhase_player : (movePhase env dt keys g).player = playerUpdate env keys dt g.player :=
  rfl

@[simp] theorem spawnCollectEffect_state (c : ℤ) :
    (spawnCollectEffect env pos c g).state = g.state := rfl

@[simp] theorem spawnCollectEffect_score (c : ℤ) :
    (spawnCollectEffect env pos c g).score = g.score := rfl

@[simp] theorem spawnCollectEffect_lives (c : ℤ) :
    (spawnCollectEffect env pos c g).lives = g.lives := rfl

@[simp] theorem spawnCollectEffect_timeLeft (c : ℤ) :
    (spawnCollectEffect env pos c g).timeLeft = g.timeLeft := rfl

@[simp] theorem spawnCollectEffect_combo (c : ℤ) :
    (spawnCollectEffect env pos c g).combo = g.combo := rfl

@[simp] theorem spawnCollectEffect_comboTimer (c : ℤ) :
    (spawnCollectEffect env pos c g).comboTimer = g.comboTimer := rfl

@[simp] theorem spawnCollectEffect_player (c : ℤ) :
    (spawnCollectEffect env pos c g).player = g.player := rfl

@[simp] theorem spawnCollectEffect_items (c : ℤ) :
    (spawnCollectEffect env pos c g).items = g.items := rfl

@[simp] theorem spawnCollectEffect_hazards (c : ℤ) :
    (spawnCollectEffect env pos c g).hazards = g.hazards := rfl

@[simp] theorem spawnCollectEffect_highScore (c : ℤ) :
    (spawnCollectEffect env pos c g).highScore = g.highScore := rfl

@[simp] theorem spawnCollectEffect_stored (c : ℤ) :
    (spawnCollectEffect env pos c g).stored = g.stored := rfl

@[simp] theorem spawnCollectEffect_newHighScore (c : ℤ) :
    (spawnCollectEffect env pos c g).newHighScore = g.newHighScore := rfl

@[simp] theorem spawnCollectEffect_difficultyIndex (c : ℤ) :
    (spawnCollectEffect env pos c g).difficultyIndex = g.difficultyIndex := rfl

@[simp] theorem collectItem_state : (collectItem env pos g).state = g.state := rfl

@[simp] theorem collectItem_lives : (collectItem env pos g).lives = g.lives := rfl

@[simp] theorem collectItem_timeLeft : (collectItem env pos g).timeLeft = g.timeLeft := rfl

@[simp] theorem collectItem_player : (collectItem env pos g).player = g.player := rfl

@[simp] theorem collectItem_items : (collectItem env pos g).items = g.items := rfl

@[simp] theorem collectItem_hazards : (collectItem env pos g).hazards = g.hazards := rfl

@[simp] theorem collectItem_highScore : (collectItem env pos g).highScore = g.highScore := rfl

@[simp] theorem collectItem_stored : (collectItem env pos g).stored = g.stored := rfl

@[simp] theorem collectItem_newHighScore :
    (collectItem env pos g).newHighScore = g.newHighScore := rfl

@[simp] theorem collectItem_difficultyIndex :
    (collectItem env pos g).difficultyIndex = g.difficultyIndex := rfl

theorem collectItem_combo : (collectItem env pos g).combo =
    if 0 < g.comboTimer then g.combo + 1 else 1 := rfl

theorem collectItem_comboTimer : (collectItem env pos g).comboTimer = COMBO_WINDOW := rfl

theorem collectItem_score : (collectItem env pos g).score =
    g.score + (10 + min COMBO_BONUS_CAP
      (((if 0 < g.comboTimer then g.combo + 1 else 1) - 1) * COMBO_BONUS_STEP)) := rfl

@[simp] theorem spawnItems_state : (spawnItems env n g).state = g.state := rfl

@[simp] theorem spawnItems_score : (spawnItems env n g).score = g.score := rfl

@[simp] theorem spawnItems_lives : (spawnItems env n g).lives = g.lives := rfl

@[simp] theorem spawnItems_timeLeft : (spawnItems env n g).timeLeft = g.timeLeft := rfl

@[simp] theorem spawnItems_combo : (spawnItems env n g).combo = g.combo := rfl

@[simp] theorem spawnItems_comboTimer : (spawnItems env n g).comboTimer = g.comboTimer := rfl

@[simp] theorem spawnItems_player : (spawnItems env n g).player = g.player := rfl

@[simp] theorem spawnItems_hazards : (spawnItems env n g).hazards = g.hazards := rfl

@[simp] theorem spawnItems_particles : (spawnItems env n g).particles = g.particles := rfl

@[simp] theorem spawnItems_floaters : (spawnItems env n g).floaters = g.floaters := rfl

@[simp] theorem spawnItems_highScore : (spawnItems env n g).highScore = g.highScore := rfl

@[simp] theorem spawnItems_stored : (spawnItems env n g).stored = g.stored := rfl

@[simp] theorem spawnItems_newHighScore : (spawnItems env n g).newHighScore = g.newHighScore :=
  rfl

@[simp] theorem spawnItems_difficultyIndex :
    (spawnItems env n g).difficultyIndex = g.difficultyIndex := rfl

@[simp] theorem spawnItems_shakeTimer : (spawnItems env n g).shakeTimer = g.shakeTimer := rfl

@[simp] theorem spawnItems_timeAcc : (spawnItems env n g).timeAcc = g.timeAcc := rfl

@[simp] theorem spawnHazards_state (lo hi : ℚ) :
    (spawnHazards env n lo hi g).state = g.state := rfl

@[simp] theorem spawnHazards_score (lo hi : ℚ) :
    (spawnHazards env n lo hi g).score = g.score := rfl

@[simp] theorem spawnHazards_lives (lo hi : ℚ) :
    (spawnHazards env n lo hi g).lives = g.lives := rfl

@[simp] theorem spawnHazards_timeLeft (lo hi : ℚ) :
    (spawnHazards env n lo hi g).timeLeft = g.timeLeft := rfl

@[simp] theorem spawnHazards_combo (lo hi : ℚ) :
    (spawnHazards env n lo hi g).combo = g.combo := rfl

@[simp] theorem spawnHazards_comboTimer (lo hi : ℚ) :
    (spawnHazards env n lo hi g).comboTimer = g.comboTimer := rfl

@[simp] theorem spawnHazards_player (lo hi : ℚ) :
    (spawnHazards env n lo hi g).player = g.player := rfl

@[simp] theorem spawnHazards_items (lo hi : ℚ) :
    (spawnHazards env n lo hi g).items = g.items := rfl

@[simp] theorem spawnHazards_particles (lo hi : ℚ) :
    (spawnHazards env n lo hi g).particles = g.particles := rfl

@[simp] theorem spawnHazards_floaters (lo hi : ℚ) :
    (spawnHazards env n lo hi g).floaters = g.floaters := rfl

@[simp] theorem spawnHazards_highScore (lo hi : ℚ) :
    (spawnHazards env n lo hi g).highScore = g.highScore := rfl

@[simp] theorem spawnHazards_stored (lo hi : ℚ) :
    (spawnHazards env n lo hi g).stored = g.stored := rfl

@[simp] theorem spawnHazards_newHighScore (lo hi : ℚ) :
    (spawnHazards env n lo hi g).newHighScore = g.newHighScore := rfl

@[simp] theorem spawnHazards_difficultyIndex (lo hi : ℚ) :
    (spawnHazards env n lo hi g).difficultyIndex = g.difficultyIndex := rfl

@[simp] theorem spawnHazards_shakeTimer (lo hi : ℚ) :
    (spawnHazards env n lo hi g).shakeTimer = g.shakeTimer := rfl

@[simp] theorem spawnHazards_timeAcc (lo hi : ℚ) :
    (spawnHazards env n lo hi g).timeAcc = g.timeAcc := rfl

@[simp] theorem enterGameOver_state : (enterGameOver g).state = GState.gameOver := by
  unfold enterGameOver; dsimp only; split <;> rfl

@[simp] theorem enterGameOver_score : (enterGameOver g).score = g.score := by
  unfold enterGameOver; dsimp only; split <;> rfl

@[simp] theorem enterGameOver_lives : (enterGameOver g).lives = g.lives := by
  unfold enterGameOver; dsimp only; split <;> rfl

@[simp] theorem enterGameOver_timeLeft : (enterGameOver g).timeLeft = g.timeLeft := by
  unfold enterGameOver; dsimp only; split <;> rfl

@[simp] theorem enterGameOver_combo : (enterGameOver g).combo = g.combo := by
  unfold enterGameOver; dsimp only; split <;> rfl

@[simp] theorem enterGameOver_comboTimer : (enterGameOver g).comboTimer = g.comboTimer := by
  unfold enterGameOver; dsimp only; split <;> rfl

@[simp] theorem enterGameOver_player : (enterGameOver g).player = g.player := by
  unfold enterGameOver; dsimp only; split <;> rfl

@[simp] theorem enterGameOver_items : (enterGameOver g).items = g.items := by
  unfold enterGameOver; dsimp only; split <;> rfl

@[simp] theorem enterGameOver_hazards : (enterGameOver g).hazards = g.hazards := by
  unfold enterGameOver; dsimp only; split <;> rfl

@[simp] theorem enterGameOver_difficultyIndex :
    (enterGameOver g).difficultyIndex = g.difficultyIndex := by
  unfold enterGameOver; dsimp only; split <;> rfl

theorem enterGameOver_highScore : (enterGameOver g).highScore =
    if g.highScore < g.score then g.score else g.highScore := by
  unfold enterGameOver; dsimp only; split <;> simp_all

theorem enterGameOver_stored : (enterGameOver g).stored =
    if g.highScore < g.score then g.score else g.stored := by
  unfold enterGameOver; dsimp only; split <;> simp_all

end Preservation

/-- The item pass touches only the combo, score, item and effect fields:
every other field survives the scan. -/
theorem itemsScan_preserves (env : Env) :
    ∀ (rest : List Item) (g : Game) (kept : List Item),
      (itemsScan env g kept rest).state = g.state ∧
      (itemsScan env g kept rest).lives = g.lives ∧
      (itemsScan env g kept rest).player = g.player ∧
      (itemsScan env g kept rest).timeLeft = g.timeLeft ∧
      (itemsScan env g kept rest).hazards = g.hazards ∧
      (itemsScan env g kept rest).highScore = g.highScore ∧
      (itemsScan env g kept rest).stored = g.stored ∧
      (itemsScan env g kept rest).newHighScore = g.newHighScore ∧
      (itemsScan env g kept rest).difficultyIndex = g.difficultyIndex := by
  intro rest
  induction rest with
  | nil =>
    intro g kept
    unfold itemsScan
    dsimp only
    split <;> simp
  | cons it rest ih =>
    intro g kept
    unfold itemsScan
    split
    · have h := ih (collectItem env it.pos g) kept
      simpa using h
    · exact ih g (kept ++ [it])

theorem itemsPhase_preserves (env : Env) (g : Game) :
    (itemsPhase env g).state = g.state ∧
    (itemsPhase env g).lives = g.lives ∧
    (itemsPhase env g).player = g.player ∧
    (itemsPhase env g).timeLeft = g.timeLeft ∧
    (itemsPhase env g).hazards = g.hazards ∧
    (itemsPhase env g).highScore = g.highScore ∧
    (itemsPhase env g).stored = g.stored ∧
    (itemsPhase env g).newHighScore = g.newHighScore ∧
    (itemsPhase env g).difficultyIndex = g.difficultyIndex :=
  itemsScan_preserves env g.items g []

/-- The hazard pass touches only the lives, player, hazard and effect
fields: every other field survives the scan. -/
theorem hazardLoop_preserves (env : Env) :
    ∀ (rest : List Hazard) (g : Game) (prev : List Hazard),
      (hazardLoop env g prev rest).state = g.state ∧
      (hazardLoop env g prev rest).score = g.score ∧
      (hazardLoop env g prev rest).combo = g.combo ∧
      (hazardLoop env g prev rest).comboTimer = g.comboTimer ∧
      (hazardLoop env g prev rest).timeLeft = g.timeLeft ∧
      (hazardLoop env g prev rest).items = g.items ∧
      (hazardLoop env g prev rest).highScore = g.highScore ∧
      (hazardLoop env g prev rest).stored = g.stored ∧
      (hazardLoop env g prev rest).newHighScore = g.newHighScore ∧
      (hazardLoop env g prev rest).difficultyIndex = g.difficultyIndex := by
  intro rest
  induction rest with
  | nil => intro g prev; unfold hazardLoop; simp
  | cons hz rest ih =>
    intro g prev
    unfold hazardLoop
    split
    · simp [spawnHitEffect]
    · exact ih g (prev ++ [hz])

theorem hazardPhase_preserves (env : Env) (g : Game) :
    (hazardPhase env g).state = g.state ∧
    (hazardPhase env g).score = g.score ∧
    (hazardPhase env g).combo = g.combo ∧
    (hazardPhase env g).comboTimer = g.comboTimer ∧
    (hazardPhase env g).timeLeft = g.timeLeft ∧
    (hazardPhase env g).items = g.items ∧
    (hazardPhase env g).highScore = g.highScore ∧
    (hazardPhase env g).stored = g.stored ∧
    (hazardPhase env g).newHighScore = g.newHighScore ∧
    (hazardPhase env g).difficultyIndex = g.difficultyIndex := by
  unfold hazardPhase
  split
  · exact hazardLoop_preserves env g.hazards g []
  · simp

/-- While the player is on hit cooldown the hazard pass is a no-op. -/
theorem hazardPhase_skip (env : Env) (g : Game) (h : 0 < g.player.hitCooldown) :
    hazardPhase env g = g := by
  unfold hazardPhase canTakeHit
  simp [not_le.mpr h]

/-- The hazard pass leaves the player's cooldown no smaller than it was
(a hit only raises it to the full invulnerability time). -/
theorem hazardLoop_player (env : Env) :
    ∀ (rest : List Hazard) (g : Game) (prev : List Hazard),
      (hazardLoop env g prev rest).player = g.player ∨
      (hazardLoop env g prev rest).player = markHit g.player := by
  intro rest
  induction rest with
  | nil => intro g prev; left; unfold hazardLoop; simp
  | cons hz rest ih =>
    intro g prev
    unfold hazardLoop
    split
    · right; simp [spawnHitEffect]
    · exact ih g (prev ++ [hz])

/-- A playing frame unfolds into the phase pipeline. -/
theorem gameUpdate_playing (env : Env) (dt : ℚ) (keys : List String) (g : Game)
    (h : g.state = GState.playing) :
    gameUpdate env dt keys g =
      timeoutCheck dt (hazardPhase env (itemsPhase env
        (movePhase env dt keys (comboTick dt (frameCosmetics dt g))))) := by
  unfold gameUpdate handleCollisions
  simp [h]

/-- A frame in any other state only runs the cosmetic prologue. -/
theorem gameUpdate_notPlaying (env : Env) (dt : ℚ) (keys : List String) (g : Game)
    (h : g.state ≠ GState.playing) :
    gameUpdate env dt keys g = frameCosmetics dt g := by
  unfold gameUpdate
  simp [h]

/-- clampQ really clamps: the result is inside [lo, hi] when lo <= hi. -/
theorem clampQ_mem (value lo hi : ℚ) (h : lo ≤ hi) :
    lo ≤ clampQ value lo hi ∧ clampQ value lo hi ≤ hi :=
  ⟨le_max_left lo _, max_le h (min_le_left hi value)⟩

/-- One hazard update step never changes the squared speed: a reflection
only flips the sign of a component. -/
theorem hazardUpdate_vel_len2 (env : Env) (dt : ℚ) (hz : Hazard) :
    Vec2.len2 (hazardUpdate env dt hz).vel = Vec2.len2 hz.vel := by
  unfold hazardUpdate Vec2.len2
  dsimp only
  split_ifs <;> ring

theorem hazardUpdate_foldl_len2 (env : Env) (dts : List ℚ) :
    ∀ hz : Hazard,
      Vec2.len2 (dts.foldl (fun h dt => hazardUpdate env dt h) hz).vel = Vec2.len2 hz.vel := by
  induction dts with
  | nil => intro hz; rfl
  | cons d ds ih =>
    intro hz
    rw [List.foldl_cons, ih (hazardUpdate env d hz), hazardUpdate_vel_len2]

/-- C1: for every item collection while Playing (the per-item branch of
handleCollisions, collectItem): an active combo window increments the combo
count, otherwise it resets to 1; the awarded points are
10 + min(COMBO_BONUS_CAP, (combo - 1) * COMBO_BONUS_STEP) with step 2 and
cap 14, added to the score.  The closed conjuncts check the spec's worked
examples: the 1st item of a combo yields 10 points, the 2nd inside the
window 12, the 8th inside the window 24, saturating at +14 from combo 8 on
(combo 10 still yields 24). -/
theorem combo_scoring_correct (env : Env) (pos : Vec2) (g : Game) :
    ((collectItem env pos g).combo = (if 0 < g.comboTimer then g.combo + 1 else 1) ∧
      (collectItem env pos g).comboTimer = COMBO_WINDOW ∧
      (collectItem env pos g).score = g.score +
        (10 + min COMBO_BONUS_CAP (((collectItem env pos g).combo - 1) * COMBO_BONUS_STEP))) ∧
    (collectItem envR ⟨200, 150⟩ { gBase with comboTimer := 0, combo := 0 }).score = 10 ∧
    (collectItem envR ⟨200, 150⟩ { gBase with comboTimer := 1, combo := 1 }).score = 12 ∧
    (collectItem envR ⟨200, 150⟩ { gBase with comboTimer := 1, combo := 7 }).score = 24 ∧
    (collectItem envR ⟨200, 150⟩ { gBase with comboTimer := 1, combo := 9 }).score = 24 := by
  refine ⟨⟨collectItem_combo env g pos, collectItem_comboTimer env g pos, ?_⟩, ?_, ?_, ?_, ?_⟩
  · rw [collectItem_score, collectItem_combo]
  · decide
  · decide
  · decide
  · decide

/-- C5: for every prior position and every input snapshot, the player's
position after one update lies within [radius, width - radius] on the x
axis and [radius + 40, height - radius] on the y axis (40 being the
reserved HUD band), provided those intervals are nonempty. -/
theorem player_update_bounds (env : Env) (keys : List String) (dt : ℚ) (p : Player)
    (hx : p.radius ≤ env.width - p.radius)
    (hy : p.radius + 40 ≤ env.height - p.radius) :
    p.radius ≤ (playerUpdate env keys dt p).pos.x ∧
    (playerUpdate env keys dt p).pos.x ≤ env.width - p.radius ∧
    p.radius + 40 ≤ (playerUpdate env keys dt p).pos.y ∧
    (playerUpdate env keys dt p).pos.y ≤ env.height - p.radius := by
  unfold playerUpdate
  dsimp only
  exact ⟨(clampQ_mem _ _ _ hx).1, (clampQ_mem _ _ _ hx).2,
    (clampQ_mem _ _ _ hy).1, (clampQ_mem _ _ _ hy).2⟩

/-- Witness for player_update_bounds: a 400 x 300 canvas, radius-18 player
far outside the play area moving right for a full second still ends up
inside the bounds. -/
theorem player_update_bounds_witness :
    ((18 : ℚ) ≤ envR.width - 18 ∧ (18 : ℚ) + 40 ≤ envR.height - 18) ∧
    (18 ≤ (playerUpdate envR ["d"] 1 ⟨⟨1000, -50⟩, 18, 0⟩).pos.x ∧
      (playerUpdate envR ["d"] 1 ⟨⟨1000, -50⟩, 18, 0⟩).pos.x ≤ envR.width - 18 ∧
      18 + 40 ≤ (playerUpdate envR ["d"] 1 ⟨⟨1000, -50⟩, 18, 0⟩).pos.y ∧
      (playerUpdate envR ["d"] 1 ⟨⟨1000, -50⟩, 18, 0⟩).pos.y ≤ envR.height - 18) := by
  constructor
  · constructor <;> norm_num [envR]
  · exact player_update_bounds envR (["d"]) 1 ⟨⟨1000, -50⟩, 18, 0⟩
      (by norm_num [envR]) (by norm_num [envR])

/-- C6: a hazard's speed magnitude is unchanged across any number of update
steps (hence any number of wall bounces): the squared speed is preserved
exactly, so its square root (Vec2.len through the sq oracle) is too. -/
theorem hazard_speed_invariant (env : Env) (hz : Hazard) (dts : List ℚ) :
    Vec2.len2 (dts.foldl (fun h dt => hazardUpdate env dt h) hz).vel = Vec2.len2 hz.vel ∧
    Vec2.lenO env.sq (dts.foldl (fun h dt => hazardUpdate env dt h) hz).vel =
      Vec2.lenO env.sq hz.vel := by
  refine ⟨hazardUpdate_foldl_len2 env dts hz, ?_⟩
  unfold Vec2.lenO
  rw [hazardUpdate_foldl_len2 env dts hz]

/-- C7 counterexample: on the 400 x 300 canvas, a size-24 hazard at x = 18
moving right at 4 units/s integrates to x = 20 after half a second.  That
is more than half a size (12) from the left edge, so the claimed half-size
margin predicts no reflection there, yet the code reflects: its boundary
margin is the full size (24), and the velocity sign flips. -/
theorem hazard_halfsize_margin_false :
    (hazardUpdate envR (1 / 2) ⟨⟨18, 150⟩, 24, ⟨4, 0⟩⟩).vel.x ≠
      (⟨⟨18, 150⟩, 24, ⟨4, 0⟩⟩ : Hazard).vel.x ∧
    ¬ specCrossXHalfSize envR ⟨⟨18, 150⟩, 24, ⟨4, 0⟩⟩ (18 + 4 * (1 / 2)) := by
  constructor
  · norm_num [hazardUpdate, envR, clampQ]
  · unfold specCrossXHalfSize
    norm_num [envR]

/-- C7 (amended): the wall-bounce boundary test uses a margin equal to the
hazard's full size (24 units, double its half-size), with the additional
40-unit top margin for the HUD band: each velocity component reflects
exactly when the integrated position crosses the corresponding boundary at
size distance from the edge, the position is then clamped back into those
margins, and with no crossing the hazard just moves. -/
theorem hazard_bounce_margin (env : Env) (dt : ℚ) (hz : Hazard) :
    ((hz.pos.x + hz.vel.x * dt < hz.size ∨
        env.width - hz.size < hz.pos.x + hz.vel.x * dt) →
      (hazardUpdate env dt hz).vel.x = -hz.vel.x) ∧
    (¬(hz.pos.x + hz.vel.x * dt < hz.size ∨
        env.width - hz.size < hz.pos.x + hz.vel.x * dt) →
      (hazardUpdate env dt hz).vel.x = hz.vel.x) ∧
    ((hz.pos.y + hz.vel.y * dt < hz.size + 40 ∨
        env.height - hz.size < hz.pos.y + hz.vel.y * dt) →
      (hazardUpdate env dt hz).vel.y = -hz.vel.y) ∧
    (¬(hz.pos.y + hz.vel.y * dt < hz.size + 40 ∨
        env.height - hz.size < hz.pos.y + hz.vel.y * dt) →
      (hazardUpdate env dt hz).vel.y = hz.vel.y) ∧
    (((hz.pos.x + hz.vel.x * dt < hz.size ∨
        env.width - hz.size < hz.pos.x + hz.vel.x * dt) ∨
      (hz.pos.y + hz.vel.y * dt < hz.size + 40 ∨
        env.height - hz.size < hz.pos.y + hz.vel.y * dt)) →
      (hazardUpdate env dt hz).pos =
        ⟨clampQ (hz.pos.x + hz.vel.x * dt) hz.size (env.width - hz.size),
          clampQ (hz.pos.y + hz.vel.y * dt) (hz.size + 40) (env.height - hz.size)⟩) ∧
    (¬(hz.pos.x + hz.vel.x * dt < hz.size ∨
        env.width - hz.size < hz.pos.x + hz.vel.x * dt) →
      ¬(hz.pos.y + hz.vel.y * dt < hz.size + 40 ∨
        env.height - hz.size < hz.pos.y + hz.vel.y * dt) →
      hazardUpdate env dt hz =
        { hz with pos := ⟨hz.pos.x + hz.vel.x * dt, hz.pos.y + hz.vel.y * dt⟩ }) := by
  unfold hazardUpdate
  dsimp only
  refine ⟨?_, ?_, ?_, ?_, ?_, ?_⟩
  · intro h
    rcases h with h | h <;> simp [h]
  · intro h
    push_neg at h
    simp [not_lt.mpr h.1, not_lt.mpr h.2]
  · intro h
    rcases h with h | h <;> simp [h]
  · intro h
    push_neg at h
    simp [not_lt.mpr h.1, not_lt.mpr h.2]
  · intro h
    rcases h with (h | h) | (h | h) <;> simp [h]
  · intro hx hy
    push_neg at hx hy
    simp [not_lt.mpr hx.1, not_lt.mpr hx.2, not_lt.mpr hy.1, not_lt.mpr hy.2]

/-- Witness for hazard_bounce_margin: the concrete left-edge bounce of the
counterexample hazard, with the crossing hypothesis discharged. -/
theorem hazard_bounce_margin_witness :
    ((18 : ℚ) + 4 * (1 / 2) < 24 ∨ envR.width - 24 < (18 : ℚ) + 4 * (1 / 2)) ∧
    (hazardUpdate envR (1 / 2) ⟨⟨18, 150⟩, 24, ⟨4, 0⟩⟩).vel.x =
      -((⟨⟨18, 150⟩, 24, ⟨4, 0⟩⟩ : Hazard).vel.x) := by
  have h : ((⟨⟨18, 150⟩, 24, ⟨4, 0⟩⟩ : Hazard).pos.x +
      (⟨⟨18, 150⟩, 24, ⟨4, 0⟩⟩ : Hazard).vel.x * (1 / 2) <
        (⟨⟨18, 150⟩, 24, ⟨4, 0⟩⟩ : Hazard).size ∨
      envR.width - (⟨⟨18, 150⟩, 24, ⟨4, 0⟩⟩ : Hazard).size <
        (⟨⟨18, 150⟩, 24, ⟨4, 0⟩⟩ : Hazard).pos.x +
          (⟨⟨18, 150⟩, 24, ⟨4, 0⟩⟩ : Hazard).vel.x * (1 / 2)) :=
    Or.inl (by norm_num)
  exact ⟨h, (hazard_bounce_margin envR (1 / 2) ⟨⟨18, 150⟩, 24, ⟨4, 0⟩⟩).1 h⟩

/-- The item-placement loop never grows the list beyond the target count. -/
theorem spawnItemsLoop_length_le (env : Env) (pPos : Vec2) (hzs : List Hazard)
    (newR : ℚ) (count : ℕ) :
    ∀ (fuel : ℕ) (items : List Item) (i a : ℕ), items.length ≤ count →
      (spawnItemsLoop env pPos hzs newR count fuel items i a).1.length ≤ count := by
  intro fuel
  induction fuel with
  | zero => intro items i a h; exact h
  | succ n ih =>
    intro items i a h
    simp only [spawnItemsLoop, randQ]
    split
    · rename_i hlt
      split
      · exact ih _ _ _ (by simp [Nat.succ_le_of_lt hlt])
      · exact ih _ _ _ h
    · exact h

/-- The hazard-placement loop never grows the list beyond the target
count. -/
theorem spawnHazardsLoop_length_le (env : Env) (pPos : Vec2) (lo hi : ℚ) (count : ℕ) :
    ∀ (fuel : ℕ) (hzs : List Hazard) (i a : ℕ), hzs.length ≤ count →
      (spawnHazardsLoop env pPos lo hi count fuel hzs i a).1.length ≤ count := by
  intro fuel
  induction fuel with
  | zero => intro hzs i a h; exact h
  | succ n ih =>
    intro hzs i a h
    simp only [spawnHazardsLoop, randQ]
    split
    · rename_i hlt
      split
      · exact ih _ _ _ h
      · split
        · exact ih _ _ _ h
        · exact ih _ _ _ (by simp [Nat.succ_le_of_lt hlt])
    · exact h

/-- In the constant-1/2 stream on the 400 x 300 canvas, every item
candidate lands at (200, 170), 20 units from the centered player: closer
than the 80-unit minimum, so every attempt is rejected and no item is ever
placed. -/
theorem spawnItemsLoop_reject_center :
    ∀ (fuel : ℕ) (hzs : List Hazard) (newR : ℚ) (count : ℕ) (its : List Item) (i a : ℕ),
      (spawnItemsLoop envR ⟨200, 150⟩ hzs newR count fuel its i a).1 = its := by
  intro fuel
  induction fuel with
  | zero => intro hzs newR count its i a; rfl
  | succ n ih =>
    intro hzs newR count its i a
    simp only [spawnItemsLoop, randQ]
    split
    · have hrej : distLtB ⟨40 + envR.rng i * (envR.width - 40 - 40),
          80 + envR.rng (i + 1) * (envR.height - 40 - 80)⟩ ⟨200, 150⟩ 80 = true := by
        norm_num [distLtB, Vec2.dist2, envR]
      rw [hrej]
      simp only [Bool.not_true, Bool.false_and, Bool.false_eq_true, if_false]
      exact ih hzs newR count its (i + 1 + 1) (a + 1)
    · rfl

/-- In the constant-1/2 stream on the 400 x 300 canvas, every hazard
candidate lands at (200, 170), 20 units from the centered player: closer
than the 120-unit minimum, so every attempt is rejected and no hazard is
ever placed. -/
theorem spawnHazardsLoop_reject_center :
    ∀ (fuel : ℕ) (lo hi : ℚ) (count : ℕ) (hzs : List Hazard) (i a : ℕ),
      (spawnHazardsLoop envR ⟨200, 150⟩ lo hi count fuel hzs i a).1 = hzs := by
  intro fuel
  induction fuel with
  | zero => intro lo hi count hzs i a; rfl
  | succ n ih =>
    intro lo hi count hzs i a
    simp only [spawnHazardsLoop, randQ]
    split
    · have hrej : distLtB ⟨60 + envR.rng i * (envR.width - 60 - 60),
          100 + envR.rng (i + 1) * (envR.height - 60 - 100)⟩ ⟨200, 150⟩ 120 = true := by
        norm_num [distLtB, Vec2.dist2, envR]
      rw [hrej]
      simp only [if_true]
      exact ih lo hi count hzs (i + 1 + 1) (a + 1)
    · rfl

/-- C4 (amended): for every difficulty preset, starting a run sets the
lives and the remaining time exactly to the preset's declared values,
resets the score to 0, clears the combo state, recenters the player and
clears its hit cooldown, clears all effects, and places at most the
preset's declared hazard and item counts — exactly those counts whenever
the rejection-sampling placement succeeds within its attempt caps, but
possibly fewer on a crowded or unlucky board. -/
theorem startGame_presets (env : Env) (g : Game) :
    (startGame env g).state = GState.playing ∧
    (startGame env g).score = 0 ∧
    (startGame env g).lives = (DIFFICULTIES.getD g.difficultyIndex dEasy).lives ∧
    (startGame env g).timeLeft = (DIFFICULTIES.getD g.difficultyIndex dEasy).time ∧
    (startGame env g).combo = 0 ∧
    (startGame env g).comboTimer = 0 ∧
    (startGame env g).player.pos = ⟨env.width / 2, env.height / 2⟩ ∧
    (startGame env g).player.hitCooldown = 0 ∧
    (startGame env g).particles = [] ∧
    (startGame env g).floaters = [] ∧
    (startGame env g).newHighScore = false ∧
    (startGame env g).items.length ≤ (DIFFICULTIES.getD g.difficultyIndex dEasy).items ∧
    (startGame env g).hazards.length ≤ (DIFFICULTIES.getD g.difficultyIndex dEasy).hazards := by
  unfold startGame
  dsimp only
  refine ⟨rfl, rfl, rfl, rfl, rfl, rfl, rfl, rfl, rfl, rfl, rfl, ?_, ?_⟩
  · unfold spawnItems
    dsimp only
    exact spawnItemsLoop_length_le _ _ _ _ _ _ _ _ _ (by simp)
  · unfold spawnHazards
    dsimp only
    exact spawnHazardsLoop_length_le _ _ _ _ _ _ _ _ _ (by simp)

/-- C4 counterexample: the claim that starting a run sets the hazard and
item counts exactly to the preset's values fails when the rejection
sampling exhausts its attempt caps.  With the constant-1/2 random stream
on the 400 x 300 canvas, startGame on Easy places 0 hazards (target 3) and
0 items (target 8). -/
theorem spawn_counts_not_exact :
    (startGame envR gBase).hazards.length = 0 ∧
    (startGame envR gBase).items.length = 0 ∧
    (DIFFICULTIES.getD gBase.difficultyIndex dEasy).hazards = 3 ∧
    (DIFFICULTIES.getD gBase.difficultyIndex dEasy).items = 8 := by
  have hpos : (⟨envR.width / 2, envR.height / 2⟩ : Vec2) = ⟨200, 150⟩ := by
    norm_num [envR]
  unfold startGame
  dsimp only
  unfold spawnItems spawnHazards
  dsimp only
  rw [hpos, spawnHazardsLoop_reject_center, spawnItemsLoop_reject_center]
  simp [DIFFICULTIES, dEasy, gBase]

section TimeoutLemmas

variable (dt : ℚ) (g : Game)

@[simp] theorem timeoutCheck_score : (timeoutCheck dt g).score = g.score := by
  unfold timeoutCheck; dsimp only; split <;> simp

@[simp] theorem timeoutCheck_lives : (timeoutCheck dt g).lives = g.lives := by
  unfold timeoutCheck; dsimp only; split <;> simp

@[simp] theorem timeoutCheck_combo : (timeoutCheck dt g).combo = g.combo := by
  unfold timeoutCheck; dsimp only; split <;> simp

@[simp] theorem timeoutCheck_comboTimer : (timeoutCheck dt g).comboTimer = g.comboTimer := by
  unfold timeoutCheck; dsimp only; split <;> simp

@[simp] theorem timeoutCheck_player : (timeoutCheck dt g).player = g.player := by
  unfold timeoutCheck; dsimp only; split <;> simp

@[simp] theorem timeoutCheck_items : (timeoutCheck dt g).items = g.items := by
  unfold timeoutCheck; dsimp only; split <;> simp

@[simp] theorem timeoutCheck_hazards : (timeoutCheck dt g).hazards = g.hazards := by
  unfold timeoutCheck; dsimp only; split <;> simp

@[simp] theorem timeoutCheck_difficultyIndex :
    (timeoutCheck dt g).difficultyIndex = g.difficultyIndex := by
  unfold timeoutCheck; dsimp only; split <;> simp

theorem timeoutCheck_timeLeft : (timeoutCheck dt g).timeLeft = max 0 (g.timeLeft - dt) := by
  unfold timeoutCheck; dsimp only; split <;> simp

theorem timeoutCheck_state : (timeoutCheck dt g).state =
    if max 0 (g.timeLeft - dt) ≤ 0 ∨ g.lives ≤ 0 then GState.gameOver else g.state := by
  unfold timeoutCheck; dsimp only
  split <;> rename_i h <;> simp_all

theorem timeoutCheck_highScore : (timeoutCheck dt g).highScore =
    if (max 0 (g.timeLeft - dt) ≤ 0 ∨ g.lives ≤ 0) ∧ g.highScore < g.score then g.score
    else g.highScore := by
  unfold timeoutCheck; dsimp only
  split <;> rename_i h
  · rw [enterGameOver_highScore]
    dsimp only
    split <;> rename_i h2
    · rw [if_pos ⟨h, h2⟩]
    · rw [if_neg (fun hc => h2 hc.2)]
  · rw [if_neg (fun hc => h hc.1)]

theorem timeoutCheck_stored : (timeoutCheck dt g).stored =
    if (max 0 (g.timeLeft - dt) ≤ 0 ∨ g.lives ≤ 0) ∧ g.highScore < g.score then g.score
    else g.stored := by
  unfold timeoutCheck; dsimp only
  split <;> rename_i h
  · rw [enterGameOver_stored]
    dsimp only
    split <;> rename_i h2
    · rw [if_pos ⟨h, h2⟩]
    · rw [if_neg (fun hc => h2 hc.2)]
  · rw [if_neg (fun hc => h hc.1)]

end TimeoutLemmas

/-- When the board holds a single item and it overlaps the player, the item
pass scores exactly one collection: the combo and score change by the
per-collection rule, whatever the subsequent respawn does. -/
theorem itemsPhase_single_collect (env : Env) (g : Game) (it : Item)
    (hitems : g.items = [it])
    (hov : distLeB g.player.pos it.pos (g.player.radius + it.radius) = true) :
    (itemsPhase env g).combo = (if 0 < g.comboTimer then g.combo + 1 else 1) ∧
    (itemsPhase env g).score = g.score + (10 + min COMBO_BONUS_CAP
      (((if 0 < g.comboTimer then g.combo + 1 else 1) - 1) * COMBO_BONUS_STEP)) := by
  unfold itemsPhase
  rw [hitems]
  unfold itemsScan
  rw [hov]
  simp only [if_true]
  unfold itemsScan
  dsimp only
  constructor
  · simp [collectItem_combo]
  · simp [collectItem_score, collectItem_combo]

/-- C8 (amended): within a playing frame the combo-window timer decrement
(and the combo reset when it reaches zero) is performed before collision
processing, not after it; consequently an item collected in a frame
extends the combo exactly when the window is still open after subtracting
dt from it (comboTimer - dt > 0), and otherwise starts a new combo at 1
even if the timer was active at the start of the frame.  Stated for a
frame whose board holds exactly one item, which overlaps the player after
the movement step. -/
theorem combo_window_ticks_before_collisions (env : Env) (dt : ℚ) (keys : List String)
    (g : Game) (it : Item)
    (hstate : g.state = GState.playing)
    (hdt : 0 ≤ dt)
    (hitems : g.items = [it])
    (hov : distLeB (playerUpdate env keys dt g.player).pos it.pos
        ((playerUpdate env keys dt g.player).radius + it.radius) = true) :
    (gameUpdate env dt keys g).combo = (if 0 < g.comboTimer - dt then g.combo + 1 else 1) ∧
    (gameUpdate env dt keys g).score = g.score + (10 + min COMBO_BONUS_CAP
      (((if 0 < g.comboTimer - dt then g.combo + 1 else 1) - 1) * COMBO_BONUS_STEP)) := by
  rw [gameUpdate_playing env dt keys g hstate]
  set z := movePhase env dt keys (comboTick dt (frameCosmetics dt g)) with hz
  have hzitems : z.items = [it] := by
    rw [hz]; simp [hitems]
  have hzov : distLeB z.player.pos it.pos (z.player.radius + it.radius) = true := by
    rw [hz, movePhase_player]
    simpa using hov
  have hcollect := itemsPhase_single_collect env z it hzitems hzov
  have hcombo : (if 0 < z.comboTimer then z.combo + 1 else 1) =
      (if 0 < g.comboTimer - dt then g.combo + 1 else 1) := by
    have hzc : z.comboTimer =
        if 0 < g.comboTimer then max 0 (g.comboTimer - dt) else g.comboTimer := by
      rw [hz]; simp [comboTick_comboTimer]
    have hzcb : z.combo =
        if 0 < g.comboTimer then (if max 0 (g.comboTimer - dt) = 0 then 0 else g.combo)
        else g.combo := by
      rw [hz]; simp [comboTick_combo]
    rw [hzc, hzcb]
    by_cases h1 : 0 < g.comboTimer
    · by_cases h2 : 0 < g.comboTimer - dt
      · rw [if_pos h1, if_pos h1]
        have hmax : max 0 (g.comboTimer - dt) = g.comboTimer - dt := max_eq_right h2.le
        rw [hmax, if_pos h2, if_pos h2, if_neg (ne_of_gt h2)]
      · rw [if_pos h1, if_pos h1, if_neg h2]
        have hmax : max 0 (g.comboTimer - dt) = 0 := max_eq_left (not_lt.mp h2)
        rw [hmax, if_neg (lt_irrefl 0)]
    · have h2 : ¬ 0 < g.comboTimer - dt := by
        intro hc
        exact h1 (lt_of_lt_of_le hc (by linarith))
      rw [if_neg h1, if_neg h1, if_neg h2]
  constructor
  · rw [timeoutCheck_combo, (hazardPhase_preserves env (itemsPhase env z)).2.2.1,
      hcollect.1, hcombo]
  · rw [timeoutCheck_score, (hazardPhase_preserves env (itemsPhase env z)).2.1,
      hcollect.2, hcombo]
    rw [hz]
    simp

/-- C8 counterexample: the combo-window decrement is not performed after
item collection.  In a playing frame starting with an active combo window
(comboTimer = 1/2 > 0), combo 3 and one item on the player, an update with
dt = 1/2 collects the item (10 points are scored) yet the combo becomes 1,
not 4: the code zeroes the timer before handleCollisions runs, so the
collection starts a new combo instead of extending the old one. -/
theorem combo_decrement_order_false :
    (0 : ℚ) <
      ({ gBase with
          state := GState.playing
          combo := 3
          comboTimer := 1 / 2
          timeLeft := 100
          items := [⟨⟨200, 150⟩, 10⟩] } : Game).comboTimer ∧
    (gameUpdate envR (1 / 2) []
      { gBase with
          state := GState.playing
          combo := 3
          comboTimer := 1 / 2
          timeLeft := 100
          items := [⟨⟨200, 150⟩, 10⟩] }).score =
      ({ gBase with
          state := GState.playing
          combo := 3
          comboTimer := 1 / 2
          timeLeft := 100
          items := [⟨⟨200, 150⟩, 10⟩] } : Game).score + 10 ∧
    (gameUpdate envR (1 / 2) []
      { gBase with
          state := GState.playing
          combo := 3
          comboTimer := 1 / 2
          timeLeft := 100
          items := [⟨⟨200, 150⟩, 10⟩] }).combo = 1 ∧
    (gameUpdate envR (1 / 2) []
      { gBase with
          state := GState.playing
          combo := 3
          comboTimer := 1 / 2
          timeLeft := 100
          items := [⟨⟨200, 150⟩, 10⟩] }).combo ≠
      ({ gBase with
          state := GState.playing
          combo := 3
          comboTimer := 1 / 2
          timeLeft := 100
          items := [⟨⟨200, 150⟩, 10⟩] } : Game).combo + 1 := by
  rw [gameUpdate_playing envR (1 / 2) []
    { gBase with
        state := GState.playing
        combo := 3
        comboTimer := 1 / 2
        timeLeft := 100
        items := [⟨⟨200, 150⟩, 10⟩] } rfl]
  set z := movePhase envR (1 / 2) [] (comboTick (1 / 2) (frameCosmetics (1 / 2)
    { gBase with
        state := GState.playing
        combo := 3
        comboTimer := 1 / 2
        timeLeft := 100
        items := [⟨⟨200, 150⟩, 10⟩] })) with hz
  have hzitems : z.items = [(⟨⟨200, 150⟩, 10⟩ : Item)] := by rw [hz]; simp
  have hzov : distLeB z.player.pos (⟨200, 150⟩ : Vec2)
      (z.player.radius + (10 : ℚ)) = true := by
    rw [hz, movePhase_player]
    norm_num [playerUpdate, normalizeV, Vec2.len2, clampQ, envR, gBase,
      distLeB, Vec2.dist2]
  have hcollect := itemsPhase_single_collect envR z ⟨⟨200, 150⟩, 10⟩ hzitems hzov
  have hzc : z.comboTimer = 0 := by
    rw [hz]
    simp [comboTick_comboTimer, gBase]
  have hzs : z.score = 0 := by rw [hz]; simp [gBase]
  have hcombo1 : (itemsPhase envR z).combo = 1 := by
    rw [hcollect.1, hzc]
    norm_num
  have hscore10 : (itemsPhase envR z).score = 10 := by
    rw [hcollect.2, hzc, hzs]
    norm_num [COMBO_BONUS_CAP, COMBO_BONUS_STEP]
  refine ⟨by norm_num [gBase], ?_, ?_, ?_⟩
  · rw [timeoutCheck_score, (hazardPhase_preserves envR (itemsPhase envR z)).2.1, hscore10]
    norm_num [gBase]
  · rw [timeoutCheck_combo, (hazardPhase_preserves envR (itemsPhase envR z)).2.2.1, hcombo1]
  · rw [timeoutCheck_combo, (hazardPhase_preserves envR (itemsPhase envR z)).2.2.1, hcombo1]
    norm_num [gBase]

/-- Witness for combo_window_ticks_before_collisions: with a window of 2
seconds and dt = 1/2 the window stays open through the decrement, so the
collection extends the combo from 3 to 4. -/
theorem combo_window_ticks_witness :
    (0 : ℚ) ≤ 1 / 2 ∧
    (gameUpdate envR (1 / 2) []
      { gBase with
          state := GState.playing
          combo := 3
          comboTimer := 2
          timeLeft := 100
          items := [⟨⟨200, 150⟩, 10⟩] }).combo =
      (if (0 : ℚ) < 2 - 1 / 2 then 3 + 1 else 1) := by
  refine ⟨by norm_num, ?_⟩
  exact (combo_window_ticks_before_collisions envR (1 / 2) []
    { gBase with
        state := GState.playing
        combo := 3
        comboTimer := 2
        timeLeft := 100
        items := [⟨⟨200, 150⟩, 10⟩] } ⟨⟨200, 150⟩, 10⟩
    rfl (by norm_num) rfl
    (by norm_num [playerUpdate, normalizeV, Vec2.len2, clampQ, envR, gBase,
      distLeB, Vec2.dist2])).1

/-- One frame taken while dt is strictly inside the hit cooldown: the lives
survive untouched and the cooldown has decreased by exactly dt in a playing
frame (and is untouched in any other state). -/
theorem gameUpdate_cooldown_frame (env : Env) (dt : ℚ) (keys : List String) (g : Game)
    (hdt : 0 ≤ dt) (hcd : dt < g.player.hitCooldown) :
    (gameUpdate env dt keys g).lives = g.lives ∧
    (gameUpdate env dt keys g).player.hitCooldown =
      (if g.state = GState.playing then g.player.hitCooldown - dt
       else g.player.hitCooldown) := by
  by_cases hs : g.state = GState.playing
  · rw [gameUpdate_playing env dt keys g hs, if_pos hs]
    set z := movePhase env dt keys (comboTick dt (frameCosmetics dt g)) with hzdef
    have hzp : z.player = playerUpdate env keys dt g.player := by
      rw [hzdef, movePhase_player]
      simp
    have hcd0 : 0 < g.player.hitCooldown := lt_of_le_of_lt hdt hcd
    have hpcd : (playerUpdate env keys dt g.player).hitCooldown =
        g.player.hitCooldown - dt := by
      unfold playerUpdate
      dsimp only
      rw [if_pos hcd0, max_eq_right (by linarith)]
    have hpos : 0 < (playerUpdate env keys dt g.player).hitCooldown := by
      rw [hpcd]; linarith
    have hip := itemsPhase_preserves env z
    have hskip : hazardPhase env (itemsPhase env z) = itemsPhase env z := by
      apply hazardPhase_skip
      rw [hip.2.2.1, hzp]
      exact hpos
    rw [hskip]
    constructor
    · rw [timeoutCheck_lives, hip.2.1, hzdef]
      simp
    · rw [timeoutCheck_player, hip.2.2.1, hzp, hpcd]
  · rw [gameUpdate_notPlaying env dt keys g hs, if_neg hs]
    exact ⟨rfl, rfl⟩

/-- Folding frames whose total dt stays strictly inside the cooldown never
changes the lives. -/
theorem lives_frozen_aux (env : Env) :
    ∀ (frames : List (ℚ × List String)) (g : Game),
      (∀ f ∈ frames, 0 ≤ f.1) →
      (frames.map Prod.fst).sum < g.player.hitCooldown →
      (frames.foldl (fun s f => gameUpdate env f.1 f.2 s) g).lives = g.lives := by
  intro frames
  induction frames with
  | nil => intro g _ _; rfl
  | cons f fs ih =>
    intro g hnn hsum
    simp only [List.foldl_cons]
    have hdt : 0 ≤ f.1 := hnn f (by simp)
    have hrest : ∀ x ∈ fs, 0 ≤ (x : ℚ × List String).1 := fun x hx => hnn x (by simp [hx])
    have hrestsum : 0 ≤ (fs.map Prod.fst).sum := by
      apply List.sum_nonneg
      intro x hx
      obtain ⟨y, hy, rfl⟩ := List.mem_map.mp hx
      exact hrest y hy
    have hsum1 : f.1 + (fs.map Prod.fst).sum < g.player.hitCooldown := by
      simpa using hsum
    have hdtlt : f.1 < g.player.hitCooldown := by linarith
    have hframe := gameUpdate_cooldown_frame env f.1 f.2 g hdt hdtlt
    have hnext : (fs.map Prod.fst).sum < (gameUpdate env f.1 f.2 g).player.hitCooldown := by
      rw [hframe.2]
      split <;> linarith
    rw [ih (gameUpdate env f.1 f.2 g) hrest hnext, hframe.1]

/-- C2: the hit cooldown strictly gates hazard damage.  First conjunct:
whenever the cooldown is positive at the hazard-overlap check, the whole
hazard pass is skipped (the state is returned unchanged), so no overlap can
decrement the lives.  Second: canTakeHit is true exactly when the cooldown
is 0 (the code tests <= 0, and by the fourth conjunct the cooldown never
goes negative in any reachable state).  Third: over any sequence of frames
whose nonnegative dts sum to less than the cooldown, the lives are
unchanged, however many hazards overlap.  Fourth: a frame update keeps the
cooldown nonnegative. -/
theorem hit_cooldown_gates_damage :
    (∀ (env : Env) (g : Game), 0 < g.player.hitCooldown → hazardPhase env g = g) ∧
    (∀ p : Player, 0 ≤ p.hitCooldown → (canTakeHit p = true ↔ p.hitCooldown = 0)) ∧
    (∀ (env : Env) (frames : List (ℚ × List String)) (g : Game),
      (∀ f ∈ frames, 0 ≤ f.1) →
      (frames.map Prod.fst).sum < g.player.hitCooldown →
      (frames.foldl (fun s f => gameUpdate env f.1 f.2 s) g).lives = g.lives) ∧
    (∀ (env : Env) (dt : ℚ) (keys : List String) (g : Game),
      0 ≤ g.player.hitCooldown → 0 ≤ (gameUpdate env dt keys g).player.hitCooldown) := by
  refine ⟨fun env g h => hazardPhase_skip env g h, ?_,
    fun env frames g => lives_frozen_aux env frames g, ?_⟩
  · intro p hp
    unfold canTakeHit
    rw [decide_eq_true_eq]
    exact ⟨fun h => le_antisymm h hp, fun h => le_of_eq h⟩
  · intro env dt keys g h
    by_cases hs : g.state = GState.playing
    · rw [gameUpdate_playing env dt keys g hs, timeoutCheck_player]
      set z := movePhase env dt keys (comboTick dt (frameCosmetics dt g)) with hzdef
      have hz0 : 0 ≤ z.player.hitCooldown := by
        rw [hzdef, movePhase_player]
        simp only [comboTick_player, frameCosmetics_player]
        unfold playerUpdate
        dsimp only
        split
        · exact le_max_left 0 _
        · exact h
      have hip : (itemsPhase env z).player = z.player := (itemsPhase_preserves env z).2.2.1
      unfold hazardPhase
      split
      · rcases hazardLoop_player env (itemsPhase env z).hazards (itemsPhase env z) []
          with hpl | hpl
        · rw [hpl, hip]; exact hz0
        · rw [hpl]
          norm_num [markHit, INVULN_TIME]
      · rw [hip]; exact hz0
    · rw [gameUpdate_notPlaying env dt keys g hs]
      exact h

/-- Witness for hit_cooldown_gates_damage: with a hazard sitting on the
player and a 1-second cooldown, two quarter-second frames leave the lives
at 3; the skipped hazard pass and the canTakeHit characterisation are
exercised on the same state. -/
theorem hit_cooldown_witness :
    (((0 : ℚ) ≤ 1 / 4) ∧
      (([((1 : ℚ) / 4, ([] : List String)), (1 / 4, [])].map Prod.fst).sum <
        gCool.player.hitCooldown)) ∧
    (([((1 : ℚ) / 4, ([] : List String)), (1 / 4, [])].foldl
        (fun s f => gameUpdate envR f.1 f.2 s) gCool).lives = gCool.lives) ∧
    hazardPhase envR gCool = gCool ∧
    (canTakeHit ⟨⟨200, 150⟩, 18, 0⟩ = true ↔ (0 : ℚ) = 0) := by
  have hnn : ∀ f ∈ [((1 : ℚ) / 4, ([] : List String)), (1 / 4, [])], 0 ≤ f.1 := by
    intro f hf
    fin_cases hf <;> norm_num
  have hsum : (([((1 : ℚ) / 4, ([] : List String)), (1 / 4, [])].map Prod.fst).sum <
      gCool.player.hitCooldown) := by
    norm_num [gCool]
  refine ⟨⟨by norm_num, hsum⟩, ?_, ?_, ?_⟩
  · exact hit_cooldown_gates_damage.2.2.1 envR _ gCool hnn hsum
  · exact hit_cooldown_gates_damage.1 envR gCool (by norm_num [gCool])
  · exact hit_cooldown_gates_damage.2.1 ⟨⟨200, 150⟩, 18, 0⟩ (by norm_num)

/-- A single item that does not overlap the player leaves the item pass a
no-op (the board is re-assembled unchanged and stays non-empty). -/
theorem itemsPhase_single_miss (env : Env) (g : Game) (it : Item)
    (hitems : g.items = [it])
    (hov : distLeB g.player.pos it.pos (g.player.radius + it.radius) = false) :
    itemsPhase env g = g := by
  unfold itemsPhase
  rw [hitems]
  unfold itemsScan
  simp only [hov, Bool.false_eq_true, if_false]
  unfold itemsScan
  dsimp only [List.nil_append]
  rw [if_neg (by simp)]
  rw [← hitems]

/-- With no hazards on the board the hazard pass is a no-op. -/
theorem hazardPhase_noHazards (env : Env) (g : Game) (h : g.hazards = []) :
    hazardPhase env g = g := by
  unfold hazardPhase
  split
  · rw [h]
    unfold hazardLoop
    rw [← h]
  · rfl

/-- Evaluation of the timeout scenario: one 1-second frame on gOver (1/2 s
left, score 10, high score 5) ends the run and promotes and persists the
high score. -/
theorem gOver_eval :
    (gameUpdate envR 1 [] gOver).state = GState.gameOver ∧
    (gameUpdate envR 1 [] gOver).score = 10 ∧
    (gameUpdate envR 1 [] gOver).highScore = 10 ∧
    (gameUpdate envR 1 [] gOver).stored = 10 := by
  rw [gameUpdate_playing envR 1 [] gOver rfl]
  set z := movePhase envR 1 [] (comboTick 1 (frameCosmetics 1 gOver)) with hzdef
  have hzitems : z.items = [farItem] := by rw [hzdef]; simp [gOver, gBase]
  have hzplayer : z.player = playerUpdate envR [] 1 gOver.player := by
    rw [hzdef, movePhase_player]
    simp
  have hmiss : distLeB z.player.pos farItem.pos (z.player.radius + farItem.radius) = false := by
    rw [hzplayer]
    norm_num [playerUpdate, normalizeV, Vec2.len2, clampQ, envR, gOver, gBase, farItem,
      distLeB, Vec2.dist2]
  have hi : itemsPhase envR z = z := itemsPhase_single_miss envR z farItem hzitems hmiss
  have hzhaz : z.hazards = [] := by
    rw [hzdef]
    simp [movePhase, gOver, gBase]
  have hh : hazardPhase envR z = z := hazardPhase_noHazards envR z hzhaz
  rw [hi, hh]
  have hzscore : z.score = 10 := by rw [hzdef]; simp [gOver, gBase]
  have hzhs : z.highScore = 5 := by rw [hzdef]; simp [gOver, gBase]
  have hzstored : z.stored = 5 := by rw [hzdef]; simp [gOver, gBase]
  have hztime : z.timeLeft = 1 / 2 := by rw [hzdef]; simp [gOver, gBase]
  refine ⟨?_, ?_, ?_, ?_⟩
  · rw [timeoutCheck_state, hztime]
    norm_num
  · rw [timeoutCheck_score, hzscore]
  · rw [timeoutCheck_highScore, hztime, hzhs, hzscore]
    norm_num
  · rw [timeoutCheck_stored, hztime, hzhs, hzscore]
    norm_num

/-- C3: a Playing-state update ends in GameOver exactly when the updated
run timer or lives have reached 0 (first conjunct); a GameOver-state update
stays in GameOver and runs none of the game-over entry effects again, so
the transition fires exactly once per run (second conjunct); and on the
frame that enters GameOver the high score is replaced by the final score
and persisted exactly when the final score strictly exceeds it (third
conjunct). -/
theorem gameover_transition :
    (∀ (env : Env) (dt : ℚ) (keys : List String) (g : Game), g.state = GState.playing →
      ((gameUpdate env dt keys g).state = GState.gameOver ↔
        (gameUpdate env dt keys g).timeLeft ≤ 0 ∨ (gameUpdate env dt keys g).lives ≤ 0)) ∧
    (∀ (env : Env) (dt : ℚ) (keys : List String) (g : Game), g.state = GState.gameOver →
      (gameUpdate env dt keys g).state = GState.gameOver ∧
      (gameUpdate env dt keys g).highScore = g.highScore ∧
      (gameUpdate env dt keys g).stored = g.stored ∧
      (gameUpdate env dt keys g).newHighScore = g.newHighScore ∧
      (gameUpdate env dt keys g).score = g.score ∧
      (gameUpdate env dt keys g).lives = g.lives) ∧
    (∀ (env : Env) (dt : ℚ) (keys : List String) (g : Game), g.state = GState.playing →
      (gameUpdate env dt keys g).state = GState.gameOver →
      (g.highScore < (gameUpdate env dt keys g).score →
        (gameUpdate env dt keys g).highScore = (gameUpdate env dt keys g).score ∧
        (gameUpdate env dt keys g).stored = (gameUpdate env dt keys g).score) ∧
      (¬ g.highScore < (gameUpdate env dt keys g).score →
        (gameUpdate env dt keys g).highScore = g.highScore ∧
        (gameUpdate env dt keys g).stored = g.stored)) := by
  refine ⟨?_, ?_, ?_⟩
  · intro env dt keys g h
    rw [gameUpdate_playing env dt keys g h]
    set y := hazardPhase env (itemsPhase env (movePhase env dt keys
      (comboTick dt (frameCosmetics dt g)))) with hydef
    have hys : y.state = GState.playing := by
      rw [hydef, (hazardPhase_preserves _ _).1, (itemsPhase_preserves _ _).1]
      simpa using h
    rw [timeoutCheck_state, timeoutCheck_timeLeft, timeoutCheck_lives]
    split
    · rename_i hC
      exact ⟨fun _ => hC, fun _ => rfl⟩
    · rename_i hC
      rw [hys]
      constructor
      · intro hcontra
        exact absurd hcontra (by simp)
      · intro hc
        exact absurd hc hC
  · intro env dt keys g h
    have hnp : g.state ≠ GState.playing := by rw [h]; simp
    rw [gameUpdate_notPlaying env dt keys g hnp]
    exact ⟨by simpa using h, rfl, rfl, rfl, rfl, rfl⟩
  · intro env dt keys g h hgo
    rw [gameUpdate_playing env dt keys g h] at hgo ⊢
    set y := hazardPhase env (itemsPhase env (movePhase env dt keys
      (comboTick dt (frameCosmetics dt g)))) with hydef
    have hys : y.state = GState.playing := by
      rw [hydef, (hazardPhase_preserves _ _).1, (itemsPhase_preserves _ _).1]
      simpa using h
    have hyhs : y.highScore = g.highScore := by
      rw [hydef, (hazardPhase_preserves _ _).2.2.2.2.2.2.1,
        (itemsPhase_preserves _ _).2.2.2.2.2.1]
      simp
    have hyst : y.stored = g.stored := by
      rw [hydef, (hazardPhase_preserves _ _).2.2.2.2.2.2.2.1,
        (itemsPhase_preserves _ _).2.2.2.2.2.2.1]
      simp
    have hC : max 0 (y.timeLeft - dt) ≤ 0 ∨ y.lives ≤ 0 := by
      by_contra hc
      rw [timeoutCheck_state, if_neg hc, hys] at hgo
      exact absurd hgo (by simp)
    constructor
    · intro hlt
      rw [timeoutCheck_score] at hlt ⊢
      rw [timeoutCheck_highScore, timeoutCheck_stored, hyhs, hyst]
      rw [if_pos ⟨hC, hlt⟩, if_pos ⟨hC, hlt⟩]
      exact ⟨rfl, rfl⟩
    · intro hnlt
      rw [timeoutCheck_score] at hnlt
      rw [timeoutCheck_highScore, timeoutCheck_stored, hyhs, hyst]
      rw [if_neg (fun hcon => hnlt hcon.2), if_neg (fun hcon => hnlt hcon.2)]
      exact ⟨rfl, rfl⟩

/-- Witness for gameover_transition: the gOver timeout scenario enters
GameOver on a 1-second frame, the entry promotes the high score 5 to the
final score 10 and persists it, and a further frame stays in GameOver. -/
theorem gameover_transition_witness :
    gOver.state = GState.playing ∧
    (gameUpdate envR 1 [] gOver).state = GState.gameOver ∧
    ((gameUpdate envR 1 [] gOver).highScore = (gameUpdate envR 1 [] gOver).score ∧
      (gameUpdate envR 1 [] gOver).stored = (gameUpdate envR 1 [] gOver).score) ∧
    (gameUpdate envR 1 [] (gameUpdate envR 1 [] gOver)).state = GState.gameOver := by
  refine ⟨rfl, gOver_eval.1, ?_, ?_⟩
  · exact ((gameover_transition.2.2 envR 1 [] gOver rfl gOver_eval.1).1
      (by rw [gOver_eval.2.1]; norm_num [gOver, gBase]))
  · exact (gameover_transition.2.1 envR 1 [] (gameUpdate envR 1 [] gOver) gOver_eval.1).1

@[simp] theorem startGame_highScore (env : Env) (g : Game) :
    (startGame env g).highScore = g.highScore := rfl

@[simp] theorem resetRun_highScore (env : Env) (i : Option ℕ) (g : Game) :
    (resetRun env i g).highScore = g.highScore := rfl

set_option maxHeartbeats 2000000 in
/-- A key event never changes the in-memory high score: every branch of the
state machine returns it untouched. -/
theorem onKeyDown_highScore (env : Env) (k : String) (g : Game) :
    (onKeyDown env k g).highScore = g.highScore := by
  unfold onKeyDown
  split_ifs <;> rfl

/-- C10: the in-memory high score is monotonically non-decreasing.  No
frame update, key event, run start, run reset, or game-over entry ever
decreases it; key events, run starts and resets leave it exactly unchanged;
a game-over entry raises it to the maximum of itself and the final score;
and whenever a frame update changes it at all, that frame entered GameOver
with a final score strictly above it, and the new value is that score. -/
theorem high_score_monotone :
    (∀ (env : Env) (dt : ℚ) (keys : List String) (g : Game),
      g.highScore ≤ (gameUpdate env dt keys g).highScore) ∧
    (∀ (env : Env) (k : String) (g : Game), (onKeyDown env k g).highScore = g.highScore) ∧
    (∀ (env : Env) (g : Game), (startGame env g).highScore = g.highScore) ∧
    (∀ (env : Env) (i : Option ℕ) (g : Game), (resetRun env i g).highScore = g.highScore) ∧
    (∀ g : Game, (enterGameOver g).highScore = max g.highScore g.score) ∧
    (∀ (env : Env) (dt : ℚ) (keys : List String) (g : Game),
      (gameUpdate env dt keys g).highScore ≠ g.highScore →
      (gameUpdate env dt keys g).state = GState.gameOver ∧
      g.highScore < (gameUpdate env dt keys g).score ∧
      (gameUpdate env dt keys g).highScore = (gameUpdate env dt keys g).score) := by
  have hupd : ∀ (env : Env) (dt : ℚ) (keys : List String) (g : Game),
      g.state = GState.playing →
      (gameUpdate env dt keys g).highScore = g.highScore ∨
      ((gameUpdate env dt keys g).state = GState.gameOver ∧
        g.highScore < (gameUpdate env dt keys g).score ∧
        (gameUpdate env dt keys g).highScore = (gameUpdate env dt keys g).score) := by
    intro env dt keys g h
    rw [gameUpdate_playing env dt keys g h]
    set y := hazardPhase env (itemsPhase env (movePhase env dt keys
      (comboTick dt (frameCosmetics dt g)))) with hydef
    have hyhs : y.highScore = g.highScore := by
      rw [hydef, (hazardPhase_preserves _ _).2.2.2.2.2.2.1,
        (itemsPhase_preserves _ _).2.2.2.2.2.1]
      simp
    rw [timeoutCheck_highScore, timeoutCheck_score, timeoutCheck_state, hyhs]
    by_cases hc : (max 0 (y.timeLeft - dt) ≤ 0 ∨ y.lives ≤ 0) ∧ g.highScore < y.score
    · right
      rw [if_pos hc, if_pos hc.1]
      exact ⟨rfl, hc.2, rfl⟩
    · left
      rw [if_neg hc]
  refine ⟨?_, ?_, fun env g => rfl, fun env i g => rfl, ?_, ?_⟩
  · intro env dt keys g
    by_cases h : g.state = GState.playing
    · rcases hupd env dt keys g h with he | ⟨_, hlt, heq⟩
      · rw [he]
      · rw [heq]
        exact le_of_lt hlt
    · rw [gameUpdate_notPlaying env dt keys g h]
      exact le_refl _
  · intro env k g
    exact onKeyDown_highScore env k g
  · intro g
    rw [enterGameOver_highScore]
    split
    · rename_i hlt
      exact (max_eq_right (le_of_lt hlt)).symm
    · rename_i hge
      exact (max_eq_left (not_lt.mp hge)).symm
  · intro env dt keys g hne
    by_cases h : g.state = GState.playing
    · rcases hupd env dt keys g h with he | hg
      · exact absurd he hne
      · exact hg
    · rw [gameUpdate_notPlaying env dt keys g h] at hne
      exact absurd rfl hne

/-- Witness for high_score_monotone: the gOver timeout run changes the high
score from 5 to 10, and the change conjunct reports the game-over entry,
the strict improvement, and the new value. -/
theorem high_score_monotone_witness :
    ((gameUpdate envR 1 [] gOver).highScore ≠ gOver.highScore) ∧
    ((gameUpdate envR 1 [] gOver).state = GState.gameOver ∧
      gOver.highScore < (gameUpdate envR 1 [] gOver).score ∧
      (gameUpdate envR 1 [] gOver).highScore = (gameUpdate envR 1 [] gOver).score) := by
  have hne : (gameUpdate envR 1 [] gOver).highScore ≠ gOver.highScore := by
    rw [gOver_eval.2.2.1]
    norm_num [gOver, gBase]
  exact ⟨hne, high_score_monotone.2.2.2.2.2 envR 1 [] gOver hne⟩

/-- The item-placement loop makes at most one attempt per unit of fuel. -/
theorem spawnItemsLoop_attempts (env : Env) (pPos : Vec2) (hzs : List Hazard)
    (newR : ℚ) (count : ℕ) :
    ∀ (fuel : ℕ) (items : List Item) (i a : ℕ),
      (spawnItemsLoop env pPos hzs newR count fuel items i a).2.2 ≤ a + fuel := by
  intro fuel
  induction fuel with
  | zero => intro items i a; exact Nat.le_add_right a 0
  | succ n ih =>
    intro items i a
    simp only [spawnItemsLoop, randQ]
    split
    · split
      · exact le_trans (ih _ _ _) (by omega)
      · exact le_trans (ih _ _ _) (by omega)
    · exact Nat.le_add_right a (n + 1)

/-- The hazard-placement loop makes at most one attempt per unit of fuel. -/
theorem spawnHazardsLoop_attempts (env : Env) (pPos : Vec2) (lo hi : ℚ) (count : ℕ) :
    ∀ (fuel : ℕ) (hzs : List Hazard) (i a : ℕ),
      (spawnHazardsLoop env pPos lo hi count fuel hzs i a).2.2 ≤ a + fuel := by
  intro fuel
  induction fuel with
  | zero => intro hzs i a; exact Nat.le_add_right a 0
  | succ n ih =>
    intro hzs i a
    simp only [spawnHazardsLoop, randQ]
    split
    · split
      · exact le_trans (ih _ _ _) (by omega)
      · split
        · exact le_trans (ih _ _ _) (by omega)
        · exact le_trans (ih _ _ _) (by omega)
    · exact Nat.le_add_right a (n + 1)

/-- A full board ends the item-placement loop immediately. -/
theorem spawnItemsLoop_full (env : Env) (pPos : Vec2) (hzs : List Hazard)
    (newR : ℚ) (count : ℕ) :
    ∀ (fuel : ℕ) (items : List Item) (i a : ℕ), count ≤ items.length →
      spawnItemsLoop env pPos hzs newR count fuel items i a = (items, i, a) := by
  intro fuel
  induction fuel with
  | zero => intro items i a _; rfl
  | succ n _ =>
    intro items i a h
    simp only [spawnItemsLoop]
    rw [if_neg (by omega)]

/-- Every item surviving the placement loop keeps the loop's separation
guarantees: an initial list that respects the minimum distances from the
player, from the hazards, and pairwise between items only ever grows by
candidates that were just checked against all three. -/
theorem spawnItemsLoop_separation (env : Env) (pPos : Vec2) (hzs : List Hazard)
    (newR : ℚ) (count : ℕ) :
    ∀ (fuel : ℕ) (items : List Item) (i a : ℕ),
      (∀ it ∈ items, distLtB it.pos pPos 80 = false ∧
        ∀ hz ∈ hzs, distLtB it.pos hz.pos (hz.size + it.radius + 12) = false) →
      items.Pairwise (fun x b => distLtB b.pos x.pos (x.radius + b.radius + 8) = false) →
      ((∀ it ∈ (spawnItemsLoop env pPos hzs newR count fuel items i a).1,
          distLtB it.pos pPos 80 = false ∧
          ∀ hz ∈ hzs, distLtB it.pos hz.pos (hz.size + it.radius + 12) = false) ∧
        (spawnItemsLoop env pPos hzs newR count fuel items i a).1.Pairwise
          (fun x b => distLtB b.pos x.pos (x.radius + b.radius + 8) = false)) := by
  intro fuel
  induction fuel with
  | zero => intro items i a h1 h2; exact ⟨h1, h2⟩
  | succ n ih =>
    intro items i a h1 h2
    simp only [spawnItemsLoop, randQ]
    split
    · split
      · rename_i hacc
        obtain ⟨⟨hp, ho⟩, hh⟩ :
            (distLtB ⟨40 + env.rng i * (env.width - 40 - 40),
                80 + env.rng (i + 1) * (env.height - 40 - 80)⟩ pPos 80 = false ∧
              ∀ x ∈ items, distLtB ⟨40 + env.rng i * (env.width - 40 - 40),
                80 + env.rng (i + 1) * (env.height - 40 - 80)⟩ x.pos
                  (x.radius + newR + 8) = false) ∧
            ∀ x ∈ hzs, distLtB ⟨40 + env.rng i * (env.width - 40 - 40),
              80 + env.rng (i + 1) * (env.height - 40 - 80)⟩ x.pos
                (x.size + newR + 12) = false := by
          simpa [Bool.and_eq_true, Bool.not_eq_true'] using hacc
        apply ih
        · intro it hit
          rcases List.mem_append.mp hit with hmem | hmem
          · exact h1 it hmem
          · rw [List.mem_singleton.mp hmem]
            exact ⟨hp, hh⟩
        · rw [List.pairwise_append]
          refine ⟨h2, List.pairwise_singleton _ _, ?_⟩
          intro x hx b hb
          rw [List.mem_singleton.mp hb]
          exact ho x hx
      · exact ih items _ _ h1 h2
    · exact ⟨h1, h2⟩

/-- Every hazard surviving the placement loop keeps the loop's separation
guarantees from the player and pairwise between hazards. -/
theorem spawnHazardsLoop_separation (env : Env) (pPos : Vec2) (lo hi : ℚ) (count : ℕ) :
    ∀ (fuel : ℕ) (hzs : List Hazard) (i a : ℕ),
      (∀ hz ∈ hzs, distLtB hz.pos pPos 120 = false) →
      hzs.Pairwise (fun x b => distLtB b.pos x.pos 60 = false) →
      ((∀ hz ∈ (spawnHazardsLoop env pPos lo hi count fuel hzs i a).1,
          distLtB hz.pos pPos 120 = false) ∧
        (spawnHazardsLoop env pPos lo hi count fuel hzs i a).1.Pairwise
          (fun x b => distLtB b.pos x.pos 60 = false)) := by
  intro fuel
  induction fuel with
  | zero => intro hzs i a h1 h2; exact ⟨h1, h2⟩
  | succ n ih =>
    intro hzs i a h1 h2
    simp only [spawnHazardsLoop, randQ]
    split
    · split
      · exact ih hzs _ _ h1 h2
      · split
        · exact ih hzs _ _ h1 h2
        · rename_i hfar hany
          have hfar2 : distLtB ⟨60 + env.rng i * (env.width - 60 - 60),
              100 + env.rng (i + 1) * (env.height - 60 - 100)⟩ pPos 120 = false := by
            simpa using hfar
          have hany2 : ∀ x ∈ hzs, distLtB ⟨60 + env.rng i * (env.width - 60 - 60),
              100 + env.rng (i + 1) * (env.height - 60 - 100)⟩ x.pos 60 = false := by
            intro x hx
            have h3 : (hzs.any (fun h => distLtB ⟨60 + env.rng i * (env.width - 60 - 60),
                100 + env.rng (i + 1) * (env.height - 60 - 100)⟩ h.pos 60)) = false := by
              simpa using hany
            have := List.any_eq_false.mp h3 x hx
            simpa using this
          apply ih
          · intro hz hhz
            rcases List.mem_append.mp hhz with hmem | hmem
            · exact h1 hz hmem
            · rw [List.mem_singleton.mp hmem]
              exact hfar2
          · rw [List.pairwise_append]
            refine ⟨h2, List.pairwise_singleton _ _, ?_⟩
            intro x hx b hb
            rw [List.mem_singleton.mp hb]
            exact hany2 x hx
    · exact ⟨h1, h2⟩

/-- C9: the spawner always terminates, by construction of its attempt
budgets: starting from an empty board, item placement makes at most
20 x targetCount attempts and hazard placement at most 25 x targetCount
attempts; every accepted item is at least 80 units from the player, at
least itemRadius + newRadius + 8 from every earlier item and at least
hazardSize + newRadius + 12 from every hazard, and every accepted hazard is
at least 120 units from the player and 60 from every earlier hazard; at
most targetCount entities are placed, and hitting the cap simply leaves
fewer than targetCount on the board (no error path exists).  The hazard
constructor's velocity-direction retry loop is modelled with a retry bound
(the source retries it without bound, terminating with probability 1); it
makes no placement attempts. -/
theorem spawner_caps_and_separation :
    (∀ (env : Env) (pPos : Vec2) (hzs : List Hazard) (newR : ℚ) (count : ℕ) (i : ℕ),
      (spawnItemsLoop env pPos hzs newR count (20 * count) [] i 0).2.2 ≤ 20 * count ∧
      (spawnItemsLoop env pPos hzs newR count (20 * count) [] i 0).1.length ≤ count ∧
      (∀ it ∈ (spawnItemsLoop env pPos hzs newR count (20 * count) [] i 0).1,
        distLtB it.pos pPos 80 = false ∧
        ∀ hz ∈ hzs, distLtB it.pos hz.pos (hz.size + it.radius + 12) = false) ∧
      (spawnItemsLoop env pPos hzs newR count (20 * count) [] i 0).1.Pairwise
        (fun x b => distLtB b.pos x.pos (x.radius + b.radius + 8) = false)) ∧
    (∀ (env : Env) (pPos : Vec2) (lo hi : ℚ) (count : ℕ) (i : ℕ),
      (spawnHazardsLoop env pPos lo hi count (25 * count) [] i 0).2.2 ≤ 25 * count ∧
      (spawnHazardsLoop env pPos lo hi count (25 * count) [] i 0).1.length ≤ count ∧
      (∀ hz ∈ (spawnHazardsLoop env pPos lo hi count (25 * count) [] i 0).1,
        distLtB hz.pos pPos 120 = false) ∧
      (spawnHazardsLoop env pPos lo hi count (25 * count) [] i 0).1.Pairwise
        (fun x b => distLtB b.pos x.pos 60 = false)) := by
  constructor
  · intro env pPos hzs newR count i
    have hsep := spawnItemsLoop_separation env pPos hzs newR count (20 * count) [] i 0
      (by intro it hit; cases hit) List.Pairwise.nil
    exact ⟨by simpa using spawnItemsLoop_attempts env pPos hzs newR count (20 * count) [] i 0,
      spawnItemsLoop_length_le env pPos hzs newR count (20 * count) [] i 0 (by simp),
      hsep.1, hsep.2⟩
  · intro env pPos lo hi count i
    have hsep := spawnHazardsLoop_separation env pPos lo hi count (25 * count) [] i 0
      (by intro hz hhz; cases hhz) List.Pairwise.nil
    exact ⟨by simpa using spawnHazardsLoop_attempts env pPos lo hi count (25 * count) [] i 0,
      spawnHazardsLoop_length_le env pPos lo hi count (25 * count) [] i 0 (by simp),
      hsep.1, hsep.2⟩

/-- One unfolding of the item-placement loop with the fuel kept symbolic
(used to evaluate concrete spawns without unrolling numeric fuel). -/
theorem spawnItemsLoop_succ (env : Env) (pPos : Vec2) (hzs : List Hazard) (newR : ℚ)
    (count fuel : ℕ) (items : List Item) (i a : ℕ) :
    spawnItemsLoop env pPos hzs newR count (fuel + 1) items i a =
      if items.length < count then
        (if !distLtB ⟨40 + env.rng i * (env.width - 40 - 40),
              80 + env.rng (i + 1) * (env.height - 40 - 80)⟩ pPos 80 &&
            !(items.any (fun it => distLtB ⟨40 + env.rng i * (env.width - 40 - 40),
              80 + env.rng (i + 1) * (env.height - 40 - 80)⟩ it.pos (it.radius + newR + 8))) &&
            !(hzs.any (fun hz => distLtB ⟨40 + env.rng i * (env.width - 40 - 40),
              80 + env.rng (i + 1) * (env.height - 40 - 80)⟩ hz.pos (hz.size + newR + 12))) then
          spawnItemsLoop env pPos hzs newR count fuel
            (items ++ [⟨⟨40 + env.rng i * (env.width - 40 - 40),
              80 + env.rng (i + 1) * (env.height - 40 - 80)⟩, newR⟩]) (i + 1 + 1) (a + 1)
        else spawnItemsLoop env pPos hzs newR count fuel items (i + 1 + 1) (a + 1))
      else (items, i, a) := by
  simp only [spawnItemsLoop, randQ]

/-- Witness for spawner_caps_and_separation: with the player parked at the
origin, the constant-1/2 stream accepts its first candidate (200, 170), so
a single-item spawn places exactly that item in one attempt, and the
claimed separations hold for it. -/
theorem spawner_caps_witness :
    ((spawnItemsLoop envR ⟨0, 0⟩ [] 10 1 (20 * 1) [] 0 0).2.2 ≤ 20 * 1) ∧
    ((spawnItemsLoop envR ⟨0, 0⟩ [] 10 1 (20 * 1) [] 0 0).1.length ≤ 1) ∧
    ((⟨⟨200, 170⟩, 10⟩ : Item) ∈ (spawnItemsLoop envR ⟨0, 0⟩ [] 10 1 (20 * 1) [] 0 0).1 ∧
      distLtB (⟨200, 170⟩ : Vec2) ⟨0, 0⟩ 80 = false) := by
  have happ := spawner_caps_and_separation.1 envR ⟨0, 0⟩ [] 10 1 0
  have hres : (spawnItemsLoop envR ⟨0, 0⟩ [] 10 1 (20 * 1) [] 0 0).1 =
      [⟨⟨200, 170⟩, 10⟩] := by
    rw [show (20 * 1 : ℕ) = 19 + 1 from rfl, spawnItemsLoop_succ]
    rw [if_pos (by simp)]
    have hp : distLtB ⟨40 + envR.rng 0 * (envR.width - 40 - 40),
        80 + envR.rng (0 + 1) * (envR.height - 40 - 80)⟩ ⟨0, 0⟩ 80 = false := by
      norm_num [distLtB, Vec2.dist2, envR]
    rw [hp]
    simp only [List.any_nil, Bool.not_false, Bool.and_true, Bool.true_and, if_true]
    rw [spawnItemsLoop_full envR ⟨0, 0⟩ [] 10 1 19 _ _ _ (by norm_num)]
    norm_num [envR]
  have hmem : (⟨⟨200, 170⟩, 10⟩ : Item) ∈
      (spawnItemsLoop envR ⟨0, 0⟩ [] 10 1 (20 * 1) [] 0 0).1 := by
    rw [hres]; exact List.mem_singleton.mpr rfl
  exact ⟨happ.1, happ.2.1, hmem, (happ.2.2.1 _ hmem).1⟩

end MouseDash
